import Mathlib

/-!
Verification development for the alea-server session and room coordination
engine. The definitions below are a shallow embedding of the JavaScript
source (src/websockets.mjs and src/database/mongodb), translated line by
line: JavaScript objects become association lists, nullable values become
Option, string falsiness is modelled explicitly, and fallible store calls
return Option.
-/

namespace AleaServer

/-- Sentinel scope key used by the connection registry for connections that
are not attributed to any room (NO_ROOM_KEY in src/websockets.mjs). -/
def NO_ROOM_KEY : String := "NO_ROOM"

/-- JavaScript truthiness for an optional string: undefined and null are
falsy, and the empty string is falsy as well. -/
def jsTruthyStr : Option String → Bool
  | none => false
  | some s => !(s == "")

/-- Player record, mirroring the fields of the Player entity that the
coordination engine reads and writes. -/
structure Player where
  playerID : String
  name : String
  active : Bool
  spectating : Bool
  currentRoomID : Option String
  lastConnectionTime : Int
  statsGamesPlayed : Nat
deriving Repr, DecidableEq

/-- Room record, mirroring the fields of the Room entity used by the engine.
The kickedPlayerIDs mapping is an association list from player ID to the ban
expiration instant, where none encodes an indefinite ban (null in the
source). -/
structure Room where
  roomID : String
  roomCode : String
  ownerPlayerID : String
  hostPlayerID : String
  passwordHash : Option String
  playerIDs : List String
  kickedPlayerIDs : List (String × Option Int)
  currentGameID : Option String
  previousGameIDs : List String
  currentChampion : Option String
  currentWinningStreak : Int
deriving Repr, DecidableEq

/-- Game record, mirroring the fields of the Game entity used by the engine.
The scores mapping is an association list from player ID to score. -/
structure Game where
  gameID : String
  roomID : String
  playerIDs : List String
  scores : List (String × Int)
deriving Repr, DecidableEq

/-- The persistent store visible to the engine: the players, rooms, and
games collections. -/
structure DB where
  players : List Player
  rooms : List Room
  games : List Game
deriving Repr, DecidableEq

/-! ### Connection registry

The source keeps a nested object connectedClients mapping a room scope to an
object mapping player IDs to websocket handles. We model the registry as a
flat list of (scope, playerID, handle) triples; the operations below mirror
addClient, removeClient, getClients, and getClient from src/websockets.mjs.
Websocket handles are modelled as natural numbers. -/

/-- A registry entry: room scope, player ID, and the websocket handle. -/
structure RegEntry where
  scope : String
  playerID : String
  handle : Nat
deriving Repr, DecidableEq

/-- The connection registry state. -/
abbrev Reg := List RegEntry

/-- Assignment connectedClients[scope][playerID] = handle: any previous entry
under the same (scope, playerID) key is overwritten. -/
def regSet (reg : Reg) (scope playerID : String) (handle : Nat) : Reg :=
  (List.filter (fun e => !(e.scope == scope && e.playerID == playerID)) reg)
    ++ [⟨scope, playerID, handle⟩]

/-- The removeClient operation: deletes the entry under (scope, playerID) and
returns the previous handle, if any (the source also deletes the scope bucket
once empty, which is invisible in the flat representation). -/
def removeClient (reg : Reg) (scope playerID : String) : Reg × Option Nat :=
  let prior := (List.find? (fun e => e.scope == scope && e.playerID == playerID) reg).map
    RegEntry.handle
  (List.filter (fun e => !(e.scope == scope && e.playerID == playerID)) reg, prior)

/-- The addClient operation: stores the handle under (scope, playerID), and
when the scope is a real room, additionally removes any entry for the player
under the no-room scope. -/
def addClient (reg : Reg) (scope playerID : String) (handle : Nat) : Reg :=
  let reg1 := regSet reg scope playerID handle
  if scope ≠ NO_ROOM_KEY then (removeClient reg1 NO_ROOM_KEY playerID).1 else reg1

/-- The getClients operation: the player IDs and handles registered under the
given scope. -/
def getClients (reg : Reg) (scope : String) : List (String × Nat) :=
  (List.filter (fun e => e.scope == scope) reg).map (fun e => (e.playerID, e.handle))

/-- The getClient operation: the handle registered under (scope, playerID),
or none. -/
def getClient (reg : Reg) (scope playerID : String) : Option Nat :=
  (List.find? (fun e => e.scope == scope && e.playerID == playerID) reg).map
    RegEntry.handle

/-- Number of registry entries held by the given player across all scopes. -/
def playerEntryCount (reg : Reg) (playerID : String) : Nat :=
  (List.filter (fun e => e.playerID == playerID) reg).length

/-! ### Store primitives

Association-list counterparts of the MongoDB update operators used by the
engine: field set on a nested mapping, addToSet on an array, pull from an
array, and unset of a nested mapping key. Lookups return the first document
whose ID field matches, as findOne does. -/

/-- Lookup in a JavaScript-object-like association list. -/
def assocGet {α : Type} (l : List (String × α)) (k : String) : Option α :=
  (List.find? (fun e => e.1 == k) l).map Prod.snd

/-- Key assignment on a JavaScript-object-like association list: an existing
key keeps its position and gets the new value, a new key is appended. -/
def assocSet {α : Type} (l : List (String × α)) (k : String) (v : α) : List (String × α) :=
  if List.any l (fun e => e.1 == k) then
    List.map (fun e => if e.1 == k then (k, v) else e) l
  else
    l ++ [(k, v)]

/-- Key removal from a JavaScript-object-like association list (the unset
update operator on a nested mapping key). -/
def assocRemove {α : Type} (l : List (String × α)) (k : String) : List (String × α) :=
  List.filter (fun e => !(e.1 == k)) l

/-- The addToSet update operator on an array field: appends the value only
when it is not already present. -/
def addToSet (l : List String) (x : String) : List String :=
  if x ∈ l then l else l ++ [x]

/-- The pull update operator on an array field: removes every occurrence of
the value. -/
def pull (l : List String) (x : String) : List String :=
  List.filter (fun y => !(y == x)) l

/-- The players.getByID store call. -/
def getPlayerByID (db : DB) (pid : String) : Option Player :=
  List.find? (fun p => p.playerID == pid) db.players

/-- The rooms.getByID store call. -/
def getRoomByID (db : DB) (rid : String) : Option Room :=
  List.find? (fun r => r.roomID == rid) db.rooms

/-- The games.getByID store call. -/
def getGameByID (db : DB) (gid : String) : Option Game :=
  List.find? (fun g => g.gameID == gid) db.games

/-- The rooms.getByRoomCode store call. -/
def getRoomByCode (db : DB) (code : String) : Option Room :=
  List.find? (fun r => r.roomCode == code) db.rooms

/-- The getByIDs store call: an unsorted find with an in-filter on the ID
field followed by toArray, failing (throwing in the source) when fewer
documents come back than IDs were requested. The documents come back in the
order in which the store holds them, not in the order of the requested
IDs. -/
def getPlayersByIDs (players : List Player) (ids : List String) : Option (List Player) :=
  let found := List.filter (fun p => List.contains ids p.playerID) players
  if found.length < ids.length then none else some found

/-- Update the first player document whose ID matches, as updateOne does. -/
def updatePlayerByID (ps : List Player) (pid : String) (f : Player → Player) : List Player :=
  match ps with
  | [] => []
  | p :: rest => if p.playerID == pid then f p :: rest else p :: updatePlayerByID rest pid f

/-- Update the first room document whose ID matches, as updateOne does. -/
def updateRoomByID (rs : List Room) (rid : String) (f : Room → Room) : List Room :=
  match rs with
  | [] => []
  | r :: rest => if r.roomID == rid then f r :: rest else r :: updateRoomByID rest rid f

/-- Update the first game document whose ID matches, as updateOne does. -/
def updateGameByID (gs : List Game) (gid : String) (f : Game → Game) : List Game :=
  match gs with
  | [] => []
  | g :: rest => if g.gameID == gid then f g :: rest else g :: updateGameByID rest gid f

/-! ### Protocol error messages and status codes (src/websockets.mjs and the
StatusCodes of the core library). -/

def FAILED_TO_GET_PLAYERS_MESSAGE : String := "failed to get players"
def GAME_NOT_ACTIVE_IN_ROOM_MESSAGE : String := "game not active in room"
def INVALID_DURATION_MESSAGE : String := "invalid duration"
def INVALID_PASSWORD_MESSAGE : String := "invalid password"
def MAX_PLAYERS_EXCEEDED_MESSAGE : String := "max players exceeded"
def PLAYER_NOT_IN_GAME_MESSAGE : String := "player not in game"
def PLAYER_NOT_IN_ROOM_MESSAGE : String := "player not in room"
def PLAYER_KICKED_FROM_ROOM_MESSAGE : String := "player was kicked from room"
def MISSING_GAME_ID_MESSAGE : String := "missing game ID"
def MISSING_PLAYER_ID_MESSAGE : String := "missing player ID"
def MISSING_ROOM_CODE_MESSAGE : String := "missing room code"
def MISSING_ROOM_ID_MESSAGE : String := "missing room ID"
def PERMISSION_ABANDON_GAME_MESSAGE : String := "only the host may abandon games"
def PERMISSION_KICK_PLAYER_MESSAGE : String := "only the host may kick players"
def GAME_NOT_FOUND_MESSAGE : String := "game not found"
def PLAYER_NOT_FOUND_MESSAGE : String := "player not found"
def ROOM_NOT_FOUND_MESSAGE : String := "room not found"

def BAD_REQUEST : Nat := 400
def UNAUTHORIZED : Nat := 401
def FORBIDDEN : Nat := 403
def NOT_FOUND : Nat := 404
def CONFLICT : Nat := 409
def INTERNAL_SERVER_ERROR : Nat := 500

/-! ### RoomCollection.setCurrentGameForRoom (src/database/mongodb/room.mjs)

The game ID argument is nullable (abandoning a game passes null). The
champion argument distinguishes not-supplied (outer none, undefined in the
source) from explicitly null (some none). The result is the updated room
document together with a flag recording whether a store write happened. -/

def setCurrentGameForRoom (room : Room) (gameID : Option String)
    (champ : Option (Option String)) : Room × Bool :=
  if room.currentGameID ≠ gameID then
    let r1 := { room with currentGameID := gameID }
    let r2 := match room.currentGameID with
      | some prev =>
          if prev == "" then r1
          else { r1 with previousGameIDs := addToSet r1.previousGameIDs prev }
      | none => r1
    let r3 := match champ with
      | none => r2
      | some c =>
          if jsTruthyStr c && (c == room.currentChampion) then
            { r2 with currentWinningStreak := room.currentWinningStreak + 1 }
          else
            { r2 with currentChampion := c,
                      currentWinningStreak := if jsTruthyStr c then 1 else 0 }
    (r3, true)
  else
    (room, false)

/-! ### GameCollection.addPlayerToGame (src/database/mongodb/game.mjs)

Sets the score entry of the player to 0 unconditionally and adds the player
to the participant list with addToSet semantics. -/

def addPlayerToGame (g : Game) (pid : String) : Game :=
  { g with scores := assocSet g.scores pid 0, playerIDs := addToSet g.playerIDs pid }

/-! ### MongoDB.findNewHostPlayerID (src/database/mongodb/mongodb.mjs)

The candidate list is the room membership list with the current host
filtered out. A failed store fetch falls back to the room owner. The
JavaScript falsiness tests on the intermediate variable are modelled with
jsTruthyStr. -/

def findNewHostPlayerID (players : List Player) (room : Room) : Option String :=
  let candIDs := List.filter (fun pid => !(pid == room.hostPlayerID)) room.playerIDs
  let nh : Option String :=
    match getPlayersByIDs players candIDs with
    | some ps =>
        let nh1 := (List.find? (fun p =>
          p.active && p.currentRoomID == some room.roomID && !p.spectating) ps).map
            Player.playerID
        if jsTruthyStr nh1 then nh1
        else
          let nh2 := (List.find? (fun p =>
            p.active && p.currentRoomID == some room.roomID) ps).map Player.playerID
          if !(jsTruthyStr nh2) && !(room.hostPlayerID == room.ownerPlayerID) then
            some room.ownerPlayerID
          else nh2
    | none => some room.ownerPlayerID
  if jsTruthyStr nh then nh else none

/-- A candidate is strictly eligible when the player record is found, is
active, has currentRoomID equal to the room, and is not spectating (the
wording of the specification for the first selection tier). -/
def eligibleStrict (players : List Player) (roomID pid : String) : Bool :=
  match List.find? (fun p => p.playerID == pid) players with
  | some p => p.active && p.currentRoomID == some roomID && !p.spectating
  | none => false

/-- A candidate is loosely eligible when the player record is found, is
active, and has currentRoomID equal to the room, spectating allowed (the
wording of the specification for the second selection tier). -/
def eligibleLoose (players : List Player) (roomID pid : String) : Bool :=
  match List.find? (fun p => p.playerID == pid) players with
  | some p => p.active && p.currentRoomID == some roomID
  | none => false

/-- Host selection as worded by the specification claim: first strictly
eligible candidate in the original insertion order of the membership list,
else first loosely eligible candidate, else the owner when the owner is not
already the host, else none. The code does not follow this rule: its
tie-break runs over the store return order (see findNewHostSpecStore). -/
def findNewHostSpec (players : List Player) (room : Room) : Option String :=
  let cands := List.filter (fun pid => !(pid == room.hostPlayerID)) room.playerIDs
  match List.find? (eligibleStrict players room.roomID) cands with
  | some pid => some pid
  | none =>
      match List.find? (eligibleLoose players room.roomID) cands with
      | some pid => some pid
      | none =>
          if room.ownerPlayerID == room.hostPlayerID then none
          else some room.ownerPlayerID

/-- Host selection as amended: the candidate pool is still the membership
list minus the current host, and the tiers are unchanged, but within each
tier the first match is taken over the candidate documents in the order the
store returns them (an unsorted in-filter find), not in membership
insertion order. -/
def findNewHostSpecStore (players : List Player) (room : Room) : Option String :=
  let cands := List.filter (fun pid => !(pid == room.hostPlayerID)) room.playerIDs
  let docs := List.filter (fun p => List.contains cands p.playerID) players
  match List.find? (fun p =>
      p.active && p.currentRoomID == some room.roomID && !p.spectating) docs with
  | some p => some p.playerID
  | none =>
      match List.find? (fun p => p.active && p.currentRoomID == some room.roomID) docs with
      | some p => some p.playerID
      | none =>
          if room.ownerPlayerID == room.hostPlayerID then none
          else some room.ownerPlayerID

/-! ### WebsocketServer.handleJoinGame (src/websockets.mjs)

The payload context carries optional player, room, and game IDs. Validation
follows validateGameEventContext with checkPlayerInRoom true and
checkPlayerInGame false, then the capacity check of
validatePlayerLimitForGame runs for non-spectating players, and on success
the store write, the registry update, the PLAYER_JOINED broadcast (carrying
the score read from the pre-update game snapshot), and the conditional
play-count increment are performed. -/

/-- Normalize a payload identifier: undefined, null, and the empty string
are all treated as missing (JavaScript falsiness). -/
def presentID : Option String → Option String
  | some s => if s == "" then none else some s
  | none => none

/-- Result of the JOIN_GAME handler: the error reply sent to the
originating connection (if any), the final store and registry states, and
the score carried in the PLAYER_JOINED broadcast when one was issued. -/
structure JoinGameResult where
  error : Option (String × Nat)
  db : DB
  reg : Reg
  broadcastScore : Option Int
deriving Repr, DecidableEq

/-- Error reply constructor for the JOIN_GAME handler: state is unchanged
and no broadcast is issued. -/
def joinGameErr (db : DB) (reg : Reg) (msg : String) (status : Nat) : JoinGameResult :=
  ⟨some (msg, status), db, reg, none⟩

/-- Success tail of the JOIN_GAME handler: store write via addPlayerToGame,
registry update via addClient, broadcast score from the pre-update game
snapshot, and play-count increment for first-time participants. -/
def joinGameCommit (db : DB) (reg : Reg) (ws : Nat) (player : Player) (room : Room)
    (game : Game) : JoinGameResult :=
  let newGames := updateGameByID db.games game.gameID
    (fun g => addPlayerToGame g player.playerID)
  let db1 := { db with games := newGames }
  let reg1 := addClient reg room.roomID player.playerID ws
  let score : Int := match assocGet game.scores player.playerID with
    | some s => if s == 0 then 0 else s
    | none => 0
  let newPlayers := updatePlayerByID db1.players player.playerID
    (fun p => { p with statsGamesPlayed := p.statsGamesPlayed + 1 })
  let db2 := if !(List.contains game.playerIDs player.playerID) then
      { db1 with players := newPlayers }
    else db1
  ⟨none, db2, reg1, some score⟩

/-- The JOIN_GAME handler. -/
def handleJoinGame (maxPlayersPerGame : Option Nat) (db : DB) (reg : Reg) (ws : Nat)
    (pidOpt roomIDOpt gameIDOpt : Option String) : JoinGameResult :=
  match presentID pidOpt with
  | none => joinGameErr db reg MISSING_PLAYER_ID_MESSAGE BAD_REQUEST
  | some pid =>
  match getPlayerByID db pid with
  | none => joinGameErr db reg PLAYER_NOT_FOUND_MESSAGE NOT_FOUND
  | some player =>
  match presentID roomIDOpt with
  | none => joinGameErr db reg MISSING_ROOM_ID_MESSAGE BAD_REQUEST
  | some rid =>
  match getRoomByID db rid with
  | none => joinGameErr db reg ROOM_NOT_FOUND_MESSAGE NOT_FOUND
  | some room =>
  if !(List.contains room.playerIDs pid) || !(player.currentRoomID == some rid) then
    joinGameErr db reg PLAYER_NOT_IN_ROOM_MESSAGE BAD_REQUEST
  else
  match presentID gameIDOpt with
  | none => joinGameErr db reg MISSING_GAME_ID_MESSAGE BAD_REQUEST
  | some gid =>
  match getGameByID db gid with
  | none => joinGameErr db reg GAME_NOT_FOUND_MESSAGE NOT_FOUND
  | some game =>
  if !(room.currentGameID == some gid) || !(game.roomID == room.roomID) then
    joinGameErr db reg GAME_NOT_ACTIVE_IN_ROOM_MESSAGE BAD_REQUEST
  else
  if !player.spectating then
    match getPlayersByIDs db.players game.playerIDs with
    | none => joinGameErr db reg FAILED_TO_GET_PLAYERS_MESSAGE INTERNAL_SERVER_ERROR
    | some ps =>
        let numPlayers := (List.filter (fun p =>
          p.active && p.currentRoomID == some game.roomID && !p.spectating) ps).length
        match maxPlayersPerGame with
        | some m =>
            if 0 < m ∧ m ≤ numPlayers then
              joinGameErr db reg MAX_PLAYERS_EXCEEDED_MESSAGE BAD_REQUEST
            else joinGameCommit db reg ws player room game
        | none => joinGameCommit db reg ws player room game
  else joinGameCommit db reg ws player room game

/-- Registry well-formedness: at most one entry per (scope, playerID) key.
This is what the nested-object representation of connectedClients
guarantees structurally. -/
def scopedUnique (reg : Reg) : Prop :=
  ∀ s p, (List.filter (fun e => e.scope == s && e.playerID == p) reg).length ≤ 1

/-! ### Room membership removal and host reassignment support

MongoDB.removePlayerFromRoom (src/database/mongodb/mongodb.mjs) together
with RoomCollection.removePlayerFromRoom: resolves the room, computes a new
host when the departing player is the current host, then pulls the player
from the membership list and conditionally sets the host field. The
websocket-layer wrapper additionally broadcasts PLAYER_LEFT_ROOM, which is
not tracked here. -/

def dbRemovePlayerFromRoom (db : DB) (player : Player) (roomIDArg : Option String) :
    DB × Option String :=
  let rid : Option String :=
    if jsTruthyStr roomIDArg then roomIDArg else player.currentRoomID
  match rid with
  | none => (db, none)
  | some r =>
      match getRoomByID db r with
      | none => (db, none)
      | some room =>
          let newHost : Option String :=
            if room.hostPlayerID == player.playerID then findNewHostPlayerID db.players room
            else none
          let newRooms := updateRoomByID db.rooms r (fun rm =>
            let rm1 := { rm with playerIDs := pull rm.playerIDs player.playerID }
            match newHost with
            | some nh => if nh == "" then rm1 else { rm1 with hostPlayerID := nh }
            | none => rm1)
          ({ db with rooms := newRooms }, newHost)

/-! ### Ban predicate and lazy ban clearing

The identical gate appears in handleClientConnect and joinRoom: a kicked
entry blocks the operation when the ban is indefinite or unexpired and the
player is not the room owner; otherwise the entry is removed and the
operation continues. -/

/-- The condition (expiration === null || Date.now() < expiration) on a
stored ban expiration. -/
def banActive (now : Int) (expiration : Option Int) : Bool :=
  match expiration with
  | none => true
  | some e => decide (now < e)

/-- The rooms.removePlayerFromKickedPlayersInRoom store call. -/
def dbUnkick (db : DB) (roomID pid : String) : DB :=
  let newRooms := updateRoomByID db.rooms roomID
    (fun rm => { rm with kickedPlayerIDs := assocRemove rm.kickedPlayerIDs pid })
  { db with rooms := newRooms }

/-! ### WebsocketServer.joinRoom (src/websockets.mjs)

Shared join procedure used by the JOIN_ROOM and JOIN_ROOM_WITH_CODE
handlers: lazy ban check, currentRoomID migration with removal from the
previous room, membership append, registry updates, roster construction,
the silent capacity degrade to spectator, and the roster broadcast. The
PLAYER_LEFT_ROOM broadcast of the previous room is not tracked. -/

/-- Result of the join procedure: the error reply (if any), the final store
and registry states, and the roster carried by the PLAYER_JOINED_ROOM
broadcast when one was issued. -/
structure JoinRoomResult where
  error : Option (String × Nat)
  db : DB
  reg : Reg
  roster : Option (List (String × Player))
deriving Repr, DecidableEq

/-- The getAllPlayersInRoom helper: fetches the membership list of the room,
keeps the players whose currentRoomID equals the room, and merges them over
an initial entry for the acting player. -/
def getAllPlayersInRoom (db : DB) (player : Player) (room : Room) :
    Option (List (String × Player)) :=
  match getPlayersByIDs db.players room.playerIDs with
  | none => none
  | some ps => some (List.foldl (fun acc p =>
      if p.currentRoomID == some room.roomID then assocSet acc p.playerID p else acc)
      [(player.playerID, player)] ps)

/-- First stage of the join body: the currentRoomID migration, leaving the
previous room first when there was one. -/
def joinRoomMigrateDB (db : DB) (player : Player) (room : Room) : DB :=
  if !(player.currentRoomID == some room.roomID) then
    let newPs := updatePlayerByID db.players player.playerID
      (fun p => { p with currentRoomID := some room.roomID })
    let dbA := { db with players := newPs }
    if jsTruthyStr player.currentRoomID then (dbRemovePlayerFromRoom dbA player none).1
    else dbA
  else db

/-- Second stage of the join body: the membership append in the store. -/
def joinRoomMemberDB (db1 : DB) (player : Player) (room : Room) : DB :=
  if !(List.contains room.playerIDs player.playerID) then
    let newRs := updateRoomByID db1.rooms room.roomID
      (fun rm => { rm with playerIDs := addToSet rm.playerIDs player.playerID })
    { db1 with rooms := newRs }
  else db1

/-- The in-memory room object after the push of the joining player onto its
membership list. -/
def joinRoomRoomView (room : Room) (player : Player) : Room :=
  { room with playerIDs :=
      if List.contains room.playerIDs player.playerID then room.playerIDs
      else room.playerIDs ++ [player.playerID] }

/-- The body of joinRoom after the ban gate. The player argument is the
in-memory snapshot fetched before any update. -/
def joinRoomCore (maxPlayersPerGame : Option Nat) (db : DB) (reg : Reg) (ws : Nat)
    (player : Player) (room : Room) : JoinRoomResult :=
  let db2 := joinRoomMemberDB (joinRoomMigrateDB db player room) player room
  let reg1 := addClient reg room.roomID player.playerID ws
  let reg2 := if jsTruthyStr player.currentRoomID
      && !(player.currentRoomID == some room.roomID) then
      match player.currentRoomID with
      | some old => (removeClient reg1 old player.playerID).1
      | none => reg1
    else reg1
  match getAllPlayersInRoom db2 player (joinRoomRoomView room player) with
  | none => ⟨some (FAILED_TO_GET_PLAYERS_MESSAGE, INTERNAL_SERVER_ERROR), db2, reg2, none⟩
  | some roster =>
      let overCap : Bool := match maxPlayersPerGame with
        | some m => !player.spectating && decide (0 < m) &&
            decide (m < (List.filter (fun q => q.2.active && !q.2.spectating) roster).length)
        | none => false
      if overCap then
        let newPs2 := updatePlayerByID db2.players player.playerID
          (fun p => { p with spectating := true })
        let db3 := { db2 with players := newPs2 }
        let roster2 := match assocGet roster player.playerID with
          | some pl => assocSet roster player.playerID { pl with spectating := true }
          | none => roster
        ⟨none, db3, reg2, some roster2⟩
      else
        ⟨none, db2, reg2, some roster⟩

/-- The joinRoom procedure: ban gate followed by the join body. -/
def joinRoom (maxPlayersPerGame : Option Nat) (now : Int) (db : DB) (reg : Reg) (ws : Nat)
    (player : Player) (room : Room) : JoinRoomResult :=
  match assocGet room.kickedPlayerIDs player.playerID with
  | some expiration =>
      if banActive now expiration && !(player.playerID == room.ownerPlayerID) then
        ⟨some (PLAYER_KICKED_FROM_ROOM_MESSAGE, CONFLICT), db, reg, none⟩
      else
        joinRoomCore maxPlayersPerGame (dbUnkick db room.roomID player.playerID) reg ws
          player room
  | none => joinRoomCore maxPlayersPerGame db reg ws player room

/-- The JOIN_ROOM handler: context validation, then the membership
requirement for password-protected rooms (no password is checked on this
path), then the shared join procedure. -/
def handleJoinRoom (maxPlayersPerGame : Option Nat) (now : Int) (db : DB) (reg : Reg)
    (ws : Nat) (pidOpt roomIDOpt : Option String) : JoinRoomResult :=
  match presentID pidOpt with
  | none => ⟨some (MISSING_PLAYER_ID_MESSAGE, BAD_REQUEST), db, reg, none⟩
  | some pid =>
  match getPlayerByID db pid with
  | none => ⟨some (PLAYER_NOT_FOUND_MESSAGE, NOT_FOUND), db, reg, none⟩
  | some player =>
  match presentID roomIDOpt with
  | none => ⟨some (MISSING_ROOM_ID_MESSAGE, BAD_REQUEST), db, reg, none⟩
  | some rid =>
  match getRoomByID db rid with
  | none => ⟨some (ROOM_NOT_FOUND_MESSAGE, NOT_FOUND), db, reg, none⟩
  | some room =>
  if jsTruthyStr room.passwordHash && !(player.currentRoomID == some room.roomID) then
    ⟨some (PLAYER_NOT_IN_ROOM_MESSAGE, BAD_REQUEST), db, reg, none⟩
  else joinRoom maxPlayersPerGame now db reg ws player room

/-- The JOIN_ROOM_WITH_CODE handler: player and room-code validation, then
the bcrypt comparison against the stored password hash (the verify argument
stands for the opaque bcrypt collaborator), then the shared join procedure.
Membership does not bypass the password comparison on this path. -/
def handleJoinRoomWithCode (verify : String → String → Bool)
    (maxPlayersPerGame : Option Nat) (now : Int) (db : DB) (reg : Reg) (ws : Nat)
    (passwordOpt pidOpt roomCodeOpt : Option String) : JoinRoomResult :=
  match presentID pidOpt with
  | none => ⟨some (MISSING_PLAYER_ID_MESSAGE, BAD_REQUEST), db, reg, none⟩
  | some pid =>
  match getPlayerByID db pid with
  | none => ⟨some (PLAYER_NOT_FOUND_MESSAGE, NOT_FOUND), db, reg, none⟩
  | some player =>
  match presentID roomCodeOpt with
  | none => ⟨some (MISSING_ROOM_CODE_MESSAGE, BAD_REQUEST), db, reg, none⟩
  | some code =>
  match getRoomByCode db code with
  | none => ⟨some (ROOM_NOT_FOUND_MESSAGE, NOT_FOUND), db, reg, none⟩
  | some room =>
  if jsTruthyStr room.passwordHash
      && !(verify (passwordOpt.getD "") (room.passwordHash.getD "")) then
    ⟨some (INVALID_PASSWORD_MESSAGE, UNAUTHORIZED), db, reg, none⟩
  else joinRoom maxPlayersPerGame now db reg ws player room

/-! ### WebsocketServer.handleClientConnect (src/websockets.mjs)

Connect with an optional room: player validation, the lazy ban gate when a
room is given, the active and last-connection-time updates with
currentRoomID migration (leaving the previous room first), membership
append, registry registration, and the PLAYER_WENT_ACTIVE roster broadcast.
The keepalive timer and name cache are not part of the tracked state. -/

/-- Result of the CLIENT_CONNECT handler. -/
structure ConnectResult where
  error : Option (String × Nat)
  db : DB
  reg : Reg
  broadcastRoster : Option (List (String × Player))
deriving Repr, DecidableEq

/-- Connect body for the room-directed case, after the ban gate. -/
def connectCore (now : Int) (db : DB) (reg : Reg) (ws : Nat) (player : Player)
    (room : Room) : ConnectResult :=
  let migrate := !(player.currentRoomID == some room.roomID)
  let db1 := if migrate && jsTruthyStr player.currentRoomID then
      (dbRemovePlayerFromRoom db player none).1
    else db
  let newPs := updatePlayerByID db1.players player.playerID (fun p =>
      let p1 := { p with active := true, lastConnectionTime := now }
      if migrate then { p1 with currentRoomID := some room.roomID } else p1)
  let db2 := { db1 with players := newPs }
  let db3 := if !(List.contains room.playerIDs player.playerID) then
      let newRs := updateRoomByID db2.rooms room.roomID
        (fun rm => { rm with playerIDs := addToSet rm.playerIDs player.playerID })
      { db2 with rooms := newRs }
    else db2
  let reg1 := addClient reg room.roomID player.playerID ws
  match getAllPlayersInRoom db3 player room with
  | none => ⟨some (FAILED_TO_GET_PLAYERS_MESSAGE, INTERNAL_SERVER_ERROR), db3, reg1, none⟩
  | some roster => ⟨none, db3, reg1, some roster⟩

/-- Connect body for the no-room case. -/
def connectCoreNoRoom (now : Int) (db : DB) (reg : Reg) (ws : Nat) (player : Player) :
    ConnectResult :=
  let newPs := updatePlayerByID db.players player.playerID
    (fun p => { p with active := true, lastConnectionTime := now })
  let db1 := { db with players := newPs }
  ⟨none, db1, addClient reg NO_ROOM_KEY player.playerID ws, none⟩

/-- The CLIENT_CONNECT handler. -/
def handleClientConnect (now : Int) (db : DB) (reg : Reg) (ws : Nat)
    (pidOpt roomIDOpt : Option String) : ConnectResult :=
  match presentID pidOpt with
  | none => ⟨some (MISSING_PLAYER_ID_MESSAGE, BAD_REQUEST), db, reg, none⟩
  | some pid =>
  match getPlayerByID db pid with
  | none => ⟨some (PLAYER_NOT_FOUND_MESSAGE, NOT_FOUND), db, reg, none⟩
  | some player =>
  match presentID roomIDOpt with
  | some rid =>
      match getRoomByID db rid with
      | none => ⟨some (ROOM_NOT_FOUND_MESSAGE, NOT_FOUND), db, reg, none⟩
      | some room =>
          match assocGet room.kickedPlayerIDs pid with
          | some expiration =>
              if banActive now expiration && !(pid == room.ownerPlayerID) then
                ⟨some (PLAYER_KICKED_FROM_ROOM_MESSAGE, CONFLICT), db, reg, none⟩
              else
                connectCore now (dbUnkick db rid pid) reg ws player room
          | none => connectCore now db reg ws player room
  | none => connectCoreNoRoom now db reg ws player

/-! ### WebsocketServer.handleKickPlayer (src/websockets.mjs)

Kick with ordered observable actions: the validation pipeline, the ban
persistence and target room clearing, the HOST_KICKED_PLAYER broadcast to
the registry members of the room as they are before any registry removal,
then the removal of the target from the room scope and the move of the
target connection (if any) to the no-room scope. -/

/-- Name of the outbound kick event. -/
def HOST_KICKED_PLAYER_EVENT : String := "HOST_KICKED_PLAYER"

/-- Observable registry and broadcast actions of a handler, in order. -/
inductive Action where
  | bcast (eventType : String) (recipients : List String)
  | remClient (scope playerID : String)
  | addClientAct (scope playerID : String)
deriving Repr, DecidableEq

/-- Result of the KICK_PLAYER handler. -/
structure KickResult where
  error : Option (String × Nat)
  db : DB
  reg : Reg
  actions : List Action
deriving Repr, DecidableEq

/-- Error reply constructor for the KICK_PLAYER handler. -/
def kickErr (db : DB) (reg : Reg) (msg : String) (status : Nat) : KickResult :=
  ⟨some (msg, status), db, reg, []⟩

/-- Success tail of the KICK_PLAYER handler: persist the ban with the
encoded expiration, clear the currentRoomID of the target, broadcast the
kick event to the room-scope registry members as they are before any
removal, then remove the target from the room scope and move its connection
(if any) to the no-room scope. -/
def kickCommit (now : Int) (db : DB) (reg : Reg) (pid : String) (room : Room)
    (d : Int) : KickResult :=
  let expiration : Option Int := if 0 < d then some (now + d * 1000) else none
  let newRs := updateRoomByID db.rooms room.roomID
    (fun rm => { rm with kickedPlayerIDs := assocSet rm.kickedPlayerIDs pid expiration })
  let db1 := { db with rooms := newRs }
  let newPs := updatePlayerByID db1.players pid
    (fun p => { p with currentRoomID := none })
  let db2 := { db1 with players := newPs }
  let recipients := (getClients reg room.roomID).map Prod.fst
  let removed := removeClient reg room.roomID pid
  match removed.2 with
  | some pws =>
      ⟨none, db2, addClient removed.1 NO_ROOM_KEY pid pws,
        [Action.bcast HOST_KICKED_PLAYER_EVENT recipients,
         Action.remClient room.roomID pid, Action.addClientAct NO_ROOM_KEY pid]⟩
  | none =>
      ⟨none, db2, removed.1,
        [Action.bcast HOST_KICKED_PLAYER_EVENT recipients, Action.remClient room.roomID pid]⟩

/-- The KICK_PLAYER handler. The payload player ID denotes the kick target;
the duration argument is the parseInt result of the payload duration, where
none stands for NaN. -/
def handleKickPlayer (maxKick : Int) (now : Int) (db : DB) (reg : Reg) (ws : Nat)
    (pidOpt roomIDOpt : Option String) (durationOpt : Option Int) : KickResult :=
  match presentID pidOpt with
  | none => kickErr db reg MISSING_PLAYER_ID_MESSAGE BAD_REQUEST
  | some pid =>
  match getPlayerByID db pid with
  | none => kickErr db reg PLAYER_NOT_FOUND_MESSAGE NOT_FOUND
  | some player =>
  match presentID roomIDOpt with
  | none => kickErr db reg MISSING_ROOM_ID_MESSAGE BAD_REQUEST
  | some rid =>
  match getRoomByID db rid with
  | none => kickErr db reg ROOM_NOT_FOUND_MESSAGE NOT_FOUND
  | some room =>
  if !(List.contains room.playerIDs pid) || !(player.currentRoomID == some rid) then
    kickErr db reg PLAYER_NOT_IN_ROOM_MESSAGE BAD_REQUEST
  else
  if (assocGet room.kickedPlayerIDs pid).isSome then
    kickErr db reg PLAYER_KICKED_FROM_ROOM_MESSAGE BAD_REQUEST
  else
  match getClient reg room.roomID room.hostPlayerID with
  | none => kickErr db reg PERMISSION_KICK_PLAYER_MESSAGE FORBIDDEN
  | some hostWS =>
  if !(hostWS == ws) then kickErr db reg PERMISSION_KICK_PLAYER_MESSAGE FORBIDDEN
  else
  match durationOpt with
  | none => kickErr db reg INVALID_DURATION_MESSAGE BAD_REQUEST
  | some d =>
  if d < 0 ∨ maxKick < d then kickErr db reg INVALID_DURATION_MESSAGE BAD_REQUEST
  else kickCommit now db reg pid room d

/-! ### RoomCollection.generateUniqueRoomCode (src/database/mongodb/room.mjs)

Rejection sampling of room codes: the code-length and alphabet constants
live in the core library and are kept abstract; the random choices are
modelled by a stream of natural numbers, and the while loop by explicit
fuel. A bound predicate stands for the store lookup by room code. -/

/-- One sampled code: for each of the codeLen positions, pick a character of
the alphabet as randomChoice does, indexed by the random stream. -/
def sampleCode (alphabet : List Char) (codeLen : Nat) (rng : Nat → Nat) (round : Nat) : String :=
  String.mk (List.map (fun i => alphabet.getD (rng (round * codeLen + i) % alphabet.length) 'A')
    (List.range codeLen))

/-- The retry loop of generateUniqueRoomCode: sample, look up, and return
the first code that is truthy (non-empty) and not bound to an existing
room, mirroring the while condition of the source. -/
def genLoop (bound : String → Bool) (alphabet : List Char) (codeLen : Nat)
    (rng : Nat → Nat) : Nat → Nat → Option String
  | 0, _ => none
  | fuel + 1, round =>
      let code := sampleCode alphabet codeLen rng round
      if code == "" || bound code then genLoop bound alphabet codeLen rng fuel (round + 1)
      else some code

/-- generateUniqueRoomCode with explicit fuel for the retry loop. -/
def generateUniqueRoomCode (bound : String → Bool) (alphabet : List Char) (codeLen : Nat)
    (rng : Nat → Nat) (fuel : Nat) : Option String :=
  genLoop bound alphabet codeLen rng fuel 0

/-- Store consistency for a single player ID: the lookup succeeds and the
returned document carries the requested ID. -/
def lookupConsistent (players : List Player) (pid : String) : Bool :=
  match List.find? (fun q => q.playerID == pid) players with
  | some p => p.playerID == pid
  | none => false

/-- Fixture players for the C1 witness, matching the example of the
specification: the host is inactive, the second member is an active
spectator, and the third member is active and not spectating. -/
def playersC1 : List Player :=
  [ { playerID := "A", name := "A", active := false, spectating := false,
      currentRoomID := some "r1", lastConnectionTime := 0, statsGamesPlayed := 0 },
    { playerID := "B", name := "B", active := true, spectating := true,
      currentRoomID := some "r1", lastConnectionTime := 0, statsGamesPlayed := 0 },
    { playerID := "C", name := "C", active := true, spectating := false,
      currentRoomID := some "r1", lastConnectionTime := 0, statsGamesPlayed := 0 } ]

/-- Fixture room for the C1 witness: member A is the current host. -/
def roomC1 : Room :=
  { roomID := "r1", roomCode := "RM", ownerPlayerID := "A", hostPlayerID := "A",
    passwordHash := none, playerIDs := ["A", "B", "C"], kickedPlayerIDs := [],
    currentGameID := none, previousGameIDs := [], currentChampion := none,
    currentWinningStreak := 0 }

/-- Fixture player for the C10 witness: a spectator already in the game. -/
def playerC10 : Player :=
  { playerID := "p1", name := "P", active := true, spectating := true,
    currentRoomID := some "r1", lastConnectionTime := 0, statsGamesPlayed := 0 }

/-- Fixture room for the C10 witness. -/
def roomC10 : Room :=
  { roomID := "r1", roomCode := "RM", ownerPlayerID := "p1", hostPlayerID := "p1",
    passwordHash := none, playerIDs := ["p1"], kickedPlayerIDs := [],
    currentGameID := some "g1", previousGameIDs := [], currentChampion := none,
    currentWinningStreak := 0 }

/-- Fixture game for the C10 witness: the player holds a nonzero score. -/
def gameC10 : Game :=
  { gameID := "g1", roomID := "r1", playerIDs := ["p1"], scores := [("p1", 5)] }

/-- Fixture store for the C10 witness. -/
def dbC10 : DB := { players := [playerC10], rooms := [roomC10], games := [gameC10] }

/-- Fixture player for C5: an active member of the fixture room. -/
def playerC5 : Player :=
  { playerID := "p1", name := "P", active := true, spectating := false,
    currentRoomID := some "r1", lastConnectionTime := 0, statsGamesPlayed := 0 }

/-- Fixture room for C5: password-protected, with the fixture player a
member. -/
def roomC5 : Room :=
  { roomID := "r1", roomCode := "CODE", ownerPlayerID := "p9", hostPlayerID := "p9",
    passwordHash := some "secret", playerIDs := ["p9", "p1"], kickedPlayerIDs := [],
    currentGameID := none, previousGameIDs := [], currentChampion := none,
    currentWinningStreak := 0 }

/-- Fixture store for C5. -/
def dbC5 : DB := { players := [playerC5], rooms := [roomC5], games := [] }

/-- Concrete stand-in for the opaque password verifier: plain equality. -/
def eqVerify : String → String → Bool := fun pw h => pw == h

/-- Fixture player for C4: previously banned from the fixture room, with the
ban already expired. -/
def playerC4 : Player :=
  { playerID := "p1", name := "P", active := true, spectating := false,
    currentRoomID := some "r1", lastConnectionTime := 0, statsGamesPlayed := 0 }

/-- Fixture room for C4: carries an expired ban entry for the fixture
player. -/
def roomC4 : Room :=
  { roomID := "r1", roomCode := "RM", ownerPlayerID := "p9", hostPlayerID := "p9",
    passwordHash := none, playerIDs := ["p9", "p1"],
    kickedPlayerIDs := [("p1", some 100)], currentGameID := none,
    previousGameIDs := [], currentChampion := none, currentWinningStreak := 0 }

/-- Fixture store for C4. -/
def dbC4 : DB := { players := [playerC4], rooms := [roomC4], games := [] }

/-- Fixture joiner for the room half of C3: active, not spectating, in no
room yet. -/
def playerC3 : Player :=
  { playerID := "p1", name := "P", active := true, spectating := false,
    currentRoomID := none, lastConnectionTime := 0, statsGamesPlayed := 0 }

/-- Fixture existing member for C3: active and not spectating. -/
def memberC3 : Player :=
  { playerID := "q1", name := "Q", active := true, spectating := false,
    currentRoomID := some "r1", lastConnectionTime := 0, statsGamesPlayed := 0 }

/-- Fixture room for the room half of C3, already holding one active
non-spectating member with a limit of one. -/
def roomC3 : Room :=
  { roomID := "r1", roomCode := "RM", ownerPlayerID := "q1", hostPlayerID := "q1",
    passwordHash := none, playerIDs := ["q1"], kickedPlayerIDs := [],
    currentGameID := none, previousGameIDs := [], currentChampion := none,
    currentWinningStreak := 0 }

/-- Fixture store for the room half of C3. -/
def dbC3r : DB := { players := [playerC3, memberC3], rooms := [roomC3], games := [] }

/-- The joiner as it appears in the roster after the store migration. -/
def playerC3inRoom : Player := { playerC3 with currentRoomID := some "r1" }

/-- The roster computed for the C3 room-half fixture. -/
def rosterC3 : List (String × Player) := [("p1", playerC3inRoom), ("q1", memberC3)]

/-- Fixture joiner for the game half of C3: an active non-spectating room
member. -/
def playerC3g : Player :=
  { playerID := "p1", name := "P", active := true, spectating := false,
    currentRoomID := some "r1", lastConnectionTime := 0, statsGamesPlayed := 0 }

/-- Fixture room for the game half of C3 with a current game. -/
def roomC3g : Room :=
  { roomID := "r1", roomCode := "RM", ownerPlayerID := "q1", hostPlayerID := "q1",
    passwordHash := none, playerIDs := ["q1", "p1"], kickedPlayerIDs := [],
    currentGameID := some "g1", previousGameIDs := [], currentChampion := none,
    currentWinningStreak := 0 }

/-- Fixture game for the game half of C3, already holding one active
non-spectating participant with a limit of one. -/
def gameC3 : Game :=
  { gameID := "g1", roomID := "r1", playerIDs := ["q1"], scores := [("q1", 3)] }

/-- Fixture store for the game half of C3. -/
def dbC3g : DB := { players := [playerC3g, memberC3], rooms := [roomC3g], games := [gameC3] }

/-- Fixture kick target for C2 and C6: a member of the fixture room. -/
def playerC2 : Player :=
  { playerID := "p1", name := "P", active := true, spectating := false,
    currentRoomID := some "r1", lastConnectionTime := 0, statsGamesPlayed := 0 }

/-- Fixture room for C2 and C6, hosted by q1 with no prior bans. -/
def roomC2 : Room :=
  { roomID := "r1", roomCode := "RM", ownerPlayerID := "q1", hostPlayerID := "q1",
    passwordHash := none, playerIDs := ["q1", "p1"], kickedPlayerIDs := [],
    currentGameID := none, previousGameIDs := [], currentChampion := none,
    currentWinningStreak := 0 }

/-- Fixture store for C2 and C6. -/
def dbC2 : DB := { players := [playerC2], rooms := [roomC2], games := [] }

/-- Fixture registry for C2 and C6: the host and the target are both
connected under the room scope. -/
def regC2 : Reg := [⟨"r1", "q1", 5⟩, ⟨"r1", "p1", 9⟩]

/-- Fixture room for the C7 witness. -/
def roomC7 : Room :=
  { roomID := "r1", roomCode := "ROOM", ownerPlayerID := "owner",
    hostPlayerID := "host", passwordHash := none,
    playerIDs := ["owner", "alice"], kickedPlayerIDs := [],
    currentGameID := some "g1", previousGameIDs := [],
    currentChampion := some "alice", currentWinningStreak := 2 }

/-- Fixture store for the C9 witness: one room already holds the code
AAAA. -/
def roomC9 : Room :=
  { roomID := "r1", roomCode := "AAAA", ownerPlayerID := "p1",
    hostPlayerID := "p1", passwordHash := none, playerIDs := ["p1"],
    kickedPlayerIDs := [], currentGameID := none, previousGameIDs := [],
    currentChampion := none, currentWinningStreak := 0 }

/-- Fixture store for the C9 witness wrapping the seeded room. -/
def dbC9 : DB := { players := [], rooms := [roomC9], games := [] }

/-- Fixture store for the C1 counterexample: both remaining members are
strictly eligible, and the store holds the C document before the B
document. -/
def playersC1x : List Player :=
  [ { playerID := "C", name := "C", active := true, spectating := false,
      currentRoomID := some "r1", lastConnectionTime := 0, statsGamesPlayed := 0 },
    { playerID := "B", name := "B", active := true, spectating := false,
      currentRoomID := some "r1", lastConnectionTime := 0, statsGamesPlayed := 0 } ]

/-- Fixture room for the C1 counterexample: membership order lists B before
C, and A is both owner and current host. -/
def roomC1x : Room :=
  { roomID := "r1", roomCode := "RM", ownerPlayerID := "A", hostPlayerID := "A",
    passwordHash := none, playerIDs := ["A", "B", "C"], kickedPlayerIDs := [],
    currentGameID := none, previousGameIDs := [], currentChampion := none,
    currentWinningStreak := 0 }

/-! ## Theorems -/

/-! ### Helper lemmas about the registry -/

theorem scopedUnique_filter (reg : Reg) (f : RegEntry → Bool) (h : scopedUnique reg) :
    scopedUnique (List.filter f reg) := by
  intro s p
  have hsub := (List.filter_sublist (l := reg) (p := f)).filter
    (fun e => e.scope == s && e.playerID == p)
  exact le_trans hsub.length_le (h s p)

theorem scopedUnique_regSet (reg : Reg) (scope pid : String) (ws : Nat)
    (h : scopedUnique reg) : scopedUnique (regSet reg scope pid ws) := by
  intro s p
  unfold regSet
  rw [List.filter_append]
  by_cases hs : scope = s ∧ pid = p
  · obtain ⟨rfl, rfl⟩ := hs
    have h1 : List.filter (fun e => e.scope == scope && e.playerID == pid)
        (List.filter (fun e => !(e.scope == scope && e.playerID == pid)) reg) = [] := by
      rw [List.filter_eq_nil_iff]
      intro a ha
      have := List.of_mem_filter ha
      simp only [Bool.not_eq_true'] at this
      simp [this]
    simp [h1]
  · have h2 : ((⟨scope, pid, ws⟩ : RegEntry).scope == s
        && (⟨scope, pid, ws⟩ : RegEntry).playerID == p) = false := by
      simp only [beq_eq_false_iff_ne, ne_eq, Bool.and_eq_false_iff]
      by_cases h3 : scope = s
      · right
        intro h4
        exact hs ⟨h3, h4⟩
      · left
        exact h3
    have h4 : List.filter (fun e => e.scope == s && e.playerID == p)
        [(⟨scope, pid, ws⟩ : RegEntry)] = [] := by
      simp [List.filter, h2]
    rw [h4, List.append_nil]
    have hsub := (List.filter_sublist
        (l := reg) (p := fun e => !(e.scope == scope && e.playerID == pid))).filter
      (fun e => e.scope == s && e.playerID == p)
    exact le_trans hsub.length_le (h s p)

theorem scopedUnique_removeClient (reg : Reg) (scope pid : String)
    (h : scopedUnique reg) : scopedUnique (removeClient reg scope pid).1 :=
  scopedUnique_filter reg _ h

theorem scopedUnique_addClient (reg : Reg) (scope pid : String) (ws : Nat)
    (h : scopedUnique reg) : scopedUnique (addClient reg scope pid ws) := by
  unfold addClient
  by_cases hs : scope ≠ NO_ROOM_KEY
  · rw [if_pos hs]
    exact scopedUnique_removeClient _ _ _ (scopedUnique_regSet reg scope pid ws h)
  · rw [if_neg hs]
    exact scopedUnique_regSet reg scope pid ws h

/-- C8 counterexample: connecting the same player under two different real
room scopes leaves two registry entries for that player, because addClient
only clears the no-room scope. This refutes the claimed at-most-one-entry
invariant across all scopes. -/
theorem C8_counterexample :
    playerEntryCount (addClient (addClient [] "roomA" "p1" 1) "roomB" "p1" 2) "p1" = 2
    ∧ ¬ playerEntryCount (addClient (addClient [] "roomA" "p1" 1) "roomB" "p1" 2) "p1" ≤ 1 := by
  constructor <;> decide

/-- C8 (amended): registry operations keep at most one entry per
(scope, playerID) key, and adding a client under a real room scope removes
any existing entry for that player under the no-room scope only; entries
under two distinct real room scopes may coexist. -/
theorem C8_registry_scope_uniqueness (reg : Reg) (scope pid : String) (ws : Nat)
    (hreg : scopedUnique reg) (hscope : scope ≠ NO_ROOM_KEY) :
    scopedUnique (addClient reg scope pid ws)
    ∧ scopedUnique (removeClient reg scope pid).1
    ∧ getClient (addClient reg scope pid ws) NO_ROOM_KEY pid = none := by
  refine ⟨scopedUnique_addClient reg scope pid ws hreg,
    scopedUnique_removeClient reg scope pid hreg, ?_⟩
  have hnone : List.find? (fun e => e.scope == NO_ROOM_KEY && e.playerID == pid)
      (List.filter (fun e => !(e.scope == NO_ROOM_KEY && e.playerID == pid))
        (regSet reg scope pid ws)) = none := by
    apply (List.find?_eq_none).mpr
    intro e he
    have := List.of_mem_filter he
    simp only [Bool.not_eq_true'] at this
    simp [this]
  unfold addClient getClient
  rw [if_pos hscope]
  simp only [removeClient]
  rw [hnone]
  rfl

/-! ### C7: SetCurrentGame -/

/-- C7: setCurrentGameForRoom called with the gameID already current performs
no store write; otherwise it sets currentGameID, adds the previous game ID to
the history with addToSet semantics when one existed, and updates the
champion streak: a repeated non-null champion increments the streak by
exactly one, a different non-null champion sets the champion and resets the
streak to one, an explicit null champion clears the champion and resets the
streak to zero, and an absent champion argument leaves both untouched. -/
theorem C7_setCurrentGameForRoom (room : Room) (gameID : Option String)
    (champ : Option (Option String)) :
    (room.currentGameID = gameID → setCurrentGameForRoom room gameID champ = (room, false))
    ∧ (room.currentGameID ≠ gameID →
        (setCurrentGameForRoom room gameID champ).2 = true
        ∧ ((setCurrentGameForRoom room gameID champ).1).currentGameID = gameID
        ∧ (∀ prev, room.currentGameID = some prev → prev ≠ "" →
            ((setCurrentGameForRoom room gameID champ).1).previousGameIDs
              = addToSet room.previousGameIDs prev)
        ∧ (room.currentGameID = none →
            ((setCurrentGameForRoom room gameID champ).1).previousGameIDs
              = room.previousGameIDs)
        ∧ (∀ c, champ = some (some c) → c ≠ "" →
            (room.currentChampion = some c →
              ((setCurrentGameForRoom room gameID champ).1).currentChampion = some c
              ∧ ((setCurrentGameForRoom room gameID champ).1).currentWinningStreak
                  = room.currentWinningStreak + 1)
            ∧ (room.currentChampion ≠ some c →
              ((setCurrentGameForRoom room gameID champ).1).currentChampion = some c
              ∧ ((setCurrentGameForRoom room gameID champ).1).currentWinningStreak = 1))
        ∧ (champ = some none →
            ((setCurrentGameForRoom room gameID champ).1).currentChampion = none
            ∧ ((setCurrentGameForRoom room gameID champ).1).currentWinningStreak = 0)
        ∧ (champ = none →
            ((setCurrentGameForRoom room gameID champ).1).currentChampion
              = room.currentChampion
            ∧ ((setCurrentGameForRoom room gameID champ).1).currentWinningStreak
              = room.currentWinningStreak)) := by
  constructor
  · intro h
    simp [setCurrentGameForRoom, h]
  · intro hne
    refine ⟨by simp [setCurrentGameForRoom, hne], by
        simp only [setCurrentGameForRoom, if_pos hne]
        rcases room.currentGameID with _ | prev <;> rcases champ with _ | c <;>
          simp [apply_ite Room.currentGameID] <;> split <;> simp,
      ?_, ?_, ?_, ?_, ?_⟩
    · intro prev hprev hpne
      rw [hprev] at hne
      simp only [setCurrentGameForRoom, hprev, if_pos hne]
      rcases champ with _ | c <;>
        simp [hpne, apply_ite Room.previousGameIDs]
    · intro hnone
      rw [hnone] at hne
      simp only [setCurrentGameForRoom, hnone, if_pos hne]
      rcases champ with _ | c <;>
        simp [apply_ite Room.previousGameIDs]
    · intro c hc hcne
      subst hc
      simp only [setCurrentGameForRoom, if_pos hne]
      constructor
      · intro hsame
        rcases room.currentGameID with _ | prev <;>
          simp [hsame, jsTruthyStr, hcne] <;> split <;> simp
      · intro hdiff
        have hd : ((some c : Option String) == room.currentChampion) = false := by
          simp only [beq_eq_false_iff_ne, ne_eq]
          exact fun h => hdiff h.symm
        rcases room.currentGameID with _ | prev <;>
          simp [jsTruthyStr, hcne, hd] <;> split <;> simp
    · intro hc
      subst hc
      simp only [setCurrentGameForRoom, if_pos hne]
      rcases room.currentGameID with _ | prev <;>
        simp [jsTruthyStr] <;> split <;> simp
    · intro hc
      subst hc
      simp only [setCurrentGameForRoom, if_pos hne]
      rcases room.currentGameID with _ | prev <;>
        simp <;> split <;> simp

/-- C7 witness: the SetCurrentGame statement evaluated on a concrete room
with a repeated champion. -/
theorem C7_setCurrentGameForRoom_witness :
    (setCurrentGameForRoom roomC7 (some "g2") (some (some "alice"))).2 = true
    ∧ ((setCurrentGameForRoom roomC7 (some "g2") (some (some "alice"))).1).currentWinningStreak
        = roomC7.currentWinningStreak + 1
    ∧ ((setCurrentGameForRoom roomC7 (some "g2") (some (some "alice"))).1).previousGameIDs
        = addToSet roomC7.previousGameIDs "g1" := by
  have h := (C7_setCurrentGameForRoom roomC7 (some "g2") (some (some "alice"))).2 (by decide)
  exact ⟨h.1, ((h.2.2.2.2.1 "alice" rfl (by decide)).1 (by decide)).2,
    h.2.2.1 "g1" rfl (by decide)⟩

/-! ### C1: Host reassignment selection -/

theorem length_le_filter_contains (players : List Player) (ids : List String)
    (hnodup : ids.Nodup)
    (h : ∀ pid ∈ ids, lookupConsistent players pid = true) :
    ids.length ≤ (List.filter (fun p => List.contains ids p.playerID) players).length := by
  have hsub : ids ⊆ (List.filter (fun p =>
      List.contains ids p.playerID) players).map Player.playerID := by
    intro pid hpid
    have hc := h pid hpid
    unfold lookupConsistent at hc
    rcases hf : List.find? (fun q => q.playerID == pid) players with _ | p
    · rw [hf] at hc
      simp at hc
    · rw [hf] at hc
      have hpp : p.playerID = pid := by simpa using hc
      have hpmem : p ∈ players := List.mem_of_find?_eq_some hf
      apply List.mem_map.mpr
      refine ⟨p, List.mem_filter.mpr ⟨hpmem, ?_⟩, hpp⟩
      rw [hpp]
      simpa using hpid
  calc ids.length = ids.toFinset.card := (List.toFinset_card_of_nodup hnodup).symm
    _ ≤ ((List.filter (fun p => List.contains ids p.playerID) players).map
          Player.playerID).toFinset.card := by
        apply Finset.card_le_card
        intro x hx
        rw [List.mem_toFinset] at hx ⊢
        exact hsub hx
    _ ≤ ((List.filter (fun p => List.contains ids p.playerID) players).map
          Player.playerID).length := List.toFinset_card_le _
    _ = (List.filter (fun p => List.contains ids p.playerID) players).length := by simp

/-- C1 counterexample: membership order lists B before C, both are strictly
eligible, and the store returns the C document before the B document; the
code then selects C while the insertion-order rule of the claim selects B,
so the claimed selection rule is false as stated. -/
theorem C1_counterexample :
    findNewHostPlayerID playersC1x roomC1x = some "C"
    ∧ findNewHostSpec playersC1x roomC1x = some "B"
    ∧ findNewHostPlayerID playersC1x roomC1x ≠ findNewHostSpec playersC1x roomC1x :=
  ⟨by decide, by decide, by decide⟩

/-- C1 (amended): findNewHostPlayerID selects from the candidate pool of
the membership list minus the current host, with the tiers of the claim
(first active in-room non-spectating, else first active in-room, else the
owner when the owner is not already the host, else none), but the first
match within each tier is taken over the candidate documents in the order
the store returns them, not in membership insertion order. The hypotheses
say the membership IDs are non-empty, resolve in the store to documents
carrying the same ID, and contain no duplicates, and that the owner ID is
non-empty. -/
theorem C1_findNewHostPlayerID (players : List Player) (room : Room)
    (hids : ∀ pid ∈ room.playerIDs, pid ≠ "" ∧ lookupConsistent players pid = true)
    (hnodup : room.playerIDs.Nodup)
    (howner : room.ownerPlayerID ≠ "") :
    findNewHostPlayerID players room = findNewHostSpecStore players room := by
  unfold findNewHostPlayerID findNewHostSpecStore
  have hcons : ∀ pid ∈ List.filter (fun pid => !(pid == room.hostPlayerID)) room.playerIDs,
      lookupConsistent players pid = true :=
    fun pid hpid => (hids pid (List.mem_of_mem_filter hpid)).2
  set cands := List.filter (fun pid => !(pid == room.hostPlayerID)) room.playerIDs with hcands
  have hcandnodup : cands.Nodup := hnodup.filter _
  have hlen := length_le_filter_contains players cands hcandnodup hcons
  set docs := List.filter (fun p => List.contains cands p.playerID) players with hdocs
  have hsucc : getPlayersByIDs players cands = some docs := by
    unfold getPlayersByIDs
    simp only
    rw [if_neg (not_lt.mpr hlen)]
  have hdocpid : ∀ p ∈ docs, p.playerID ≠ "" := by
    intro p hp
    have hcont := List.of_mem_filter hp
    have hmem : p.playerID ∈ cands := by simpa using hcont
    exact (hids p.playerID (List.mem_of_mem_filter hmem)).1
  simp only
  rw [hsucc]
  simp only
  rcases hs1 : List.find? (fun p =>
      p.active && p.currentRoomID == some room.roomID && !p.spectating) docs with _ | p1
  · rw [hs1]
    rcases hl1 : List.find? (fun p =>
        p.active && p.currentRoomID == some room.roomID) docs with _ | p2
    · rw [hl1]
      by_cases hho : (room.hostPlayerID == room.ownerPlayerID) = true
      · have hoh : (room.ownerPlayerID == room.hostPlayerID) = true := by
          have := eq_of_beq hho
          simp [this]
        simp [hoh, hho, jsTruthyStr]
      · have hne : ¬ room.ownerPlayerID = room.hostPlayerID := by
          intro hcontra
          exact hho (by simp [hcontra])
        have hoh : (room.ownerPlayerID == room.hostPlayerID) = false := by
          simpa using hne
        simp [hoh, hho, jsTruthyStr, howner]
    · rw [hl1]
      have hp2 : p2.playerID ≠ "" := hdocpid p2 (List.mem_of_find?_eq_some hl1)
      simp [jsTruthyStr, hp2]
  · rw [hs1]
    have hp1 : p1.playerID ≠ "" := hdocpid p1 (List.mem_of_find?_eq_some hs1)
    simp [jsTruthyStr, hp1]

/-- C1 witness: the amended statement evaluated on the example of the
specification, where member C is selected by the strict tier. -/
theorem C1_findNewHostPlayerID_witness :
    findNewHostPlayerID playersC1 roomC1 = findNewHostSpecStore playersC1 roomC1
    ∧ findNewHostPlayerID playersC1 roomC1 = some "C" :=
  ⟨C1_findNewHostPlayerID playersC1 roomC1 (by decide) (by decide) (by decide), by decide⟩

/-! ### C10: JoinGame score overwrite -/

theorem assocGet_cons_neg {α : Type} (e : String × α) (l : List (String × α)) (k : String)
    (h : (e.1 == k) = false) : assocGet (e :: l) k = assocGet l k := by
  unfold assocGet
  rw [List.find?_cons_of_neg _ (by simp [h])]

theorem assocGet_assocSet {α : Type} (l : List (String × α)) (k : String) (v : α) :
    assocGet (assocSet l k v) k = some v := by
  induction l with
  | nil => simp [assocSet, assocGet]
  | cons e rest ih =>
    by_cases he : (e.1 == k) = true
    · have h1 : assocSet (e :: rest) k v
          = (k, v) :: List.map (fun x => if x.1 == k then (k, v) else x) rest := by
        unfold assocSet
        rw [if_pos (by simp [List.any_cons, he]), List.map_cons, if_pos he]
      rw [h1]
      unfold assocGet
      rw [List.find?_cons_of_pos _ (by simp)]
      rfl
    · have he' : (e.1 == k) = false := by simpa using he
      have hphi : (if e.1 == k then (k, v) else e) = e := by
        rw [if_neg (by simp [he'])]
      have h1 : assocSet (e :: rest) k v = e :: assocSet rest k v := by
        unfold assocSet
        rw [List.any_cons, he', Bool.false_or]
        by_cases ha : List.any rest (fun x => x.1 == k) = true
        · rw [if_pos ha, if_pos ha, List.map_cons, hphi]
        · rw [if_neg ha, if_neg ha, List.cons_append]
      rw [h1, assocGet_cons_neg _ _ _ he']
      exact ih

theorem find?_updateGameByID (gs : List Game) (gid : String) (f : Game → Game)
    (hf : ∀ g, (f g).gameID = g.gameID) :
    List.find? (fun g => g.gameID == gid) (updateGameByID gs gid f)
      = Option.map f (List.find? (fun g => g.gameID == gid) gs) := by
  induction gs with
  | nil => simp [updateGameByID]
  | cons g rest ih =>
    by_cases h : (g.gameID == gid) = true
    · have hfg : ((f g).gameID == gid) = true := by rw [hf]; exact h
      simp only [updateGameByID, if_pos h]
      rw [List.find?_cons_of_pos (p := fun (g : Game) => g.gameID == gid) _ hfg,
        List.find?_cons_of_pos (p := fun (g : Game) => g.gameID == gid) _ h]
      rfl
    · have h' : (g.gameID == gid) = false := by simpa using h
      simp only [updateGameByID, if_neg (by simp [h'] : ¬(g.gameID == gid) = true)]
      rw [List.find?_cons_of_neg (p := fun (g : Game) => g.gameID == gid) _ (by simp [h']),
        List.find?_cons_of_neg (p := fun (g : Game) => g.gameID == gid) _ (by simp [h'])]
      exact ih

/-- C10: a JoinGame by a player already in the participant list overwrites
the score entry of the player with 0 through addPlayerToGame, while the
PLAYER_JOINED broadcast carries the score read from the pre-update game
snapshot; the participant list itself is unchanged because the update uses
addToSet semantics. -/
theorem C10_joinGame_score_overwrite (maxP : Option Nat) (db : DB) (reg : Reg) (ws : Nat)
    (player : Player) (room : Room) (game : Game) (s : Int)
    (hpid : player.playerID ≠ "") (hrid : room.roomID ≠ "") (hgid : game.gameID ≠ "")
    (hplayer : getPlayerByID db player.playerID = some player)
    (hroom : getRoomByID db room.roomID = some room)
    (hgame : getGameByID db game.gameID = some game)
    (hmem : player.playerID ∈ room.playerIDs)
    (hcur : player.currentRoomID = some room.roomID)
    (hact : room.currentGameID = some game.gameID)
    (hgr : game.roomID = room.roomID)
    (hin : player.playerID ∈ game.playerIDs)
    (hscore : assocGet game.scores player.playerID = some s) (hs : s ≠ 0)
    (hsucc : (handleJoinGame maxP db reg ws (some player.playerID) (some room.roomID)
        (some game.gameID)).error = none) :
    (handleJoinGame maxP db reg ws (some player.playerID) (some room.roomID)
        (some game.gameID)).broadcastScore = some s
    ∧ getGameByID (handleJoinGame maxP db reg ws (some player.playerID) (some room.roomID)
        (some game.gameID)).db game.gameID = some (addPlayerToGame game player.playerID)
    ∧ assocGet (addPlayerToGame game player.playerID).scores player.playerID = some 0
    ∧ (addPlayerToGame game player.playerID).playerIDs = game.playerIDs := by
  have hpid' : presentID (some player.playerID) = some player.playerID := by
    simp [presentID, hpid]
  have hrid' : presentID (some room.roomID) = some room.roomID := by
    simp [presentID, hrid]
  have hgid' : presentID (some game.gameID) = some game.gameID := by
    simp [presentID, hgid]
  have hcond1 : (!(List.contains room.playerIDs player.playerID)
      || !(player.currentRoomID == some room.roomID)) = false := by
    simp [hcur]
    simpa using hmem
  have hcond2 : (!(room.currentGameID == some game.gameID)
      || !(game.roomID == room.roomID)) = false := by
    simp [hact, hgr]
  have hbs : (joinGameCommit db reg ws player room game).broadcastScore = some s := by
    have hs' : (s == 0) = false := by simpa using hs
    simp [joinGameCommit, hscore, hs']
  have hgm : getGameByID (joinGameCommit db reg ws player room game).db game.gameID
      = some (addPlayerToGame game player.playerID) := by
    have hdb2 : (joinGameCommit db reg ws player room game).db.games
        = updateGameByID db.games game.gameID (fun g => addPlayerToGame g player.playerID) := by
      simp [joinGameCommit, apply_ite DB.games]
    unfold getGameByID
    rw [hdb2, find?_updateGameByID db.games game.gameID
      (fun g => addPlayerToGame g player.playerID) (fun g => rfl)]
    unfold getGameByID at hgame
    rw [hgame]
    rfl
  have hsc : assocGet (addPlayerToGame game player.playerID).scores player.playerID
      = some 0 := by
    simp only [addPlayerToGame]
    exact assocGet_assocSet _ _ _
  have hpl : (addPlayerToGame game player.playerID).playerIDs = game.playerIDs := by
    simp [addPlayerToGame, addToSet, hin]
  simp only [handleJoinGame, hpid', hrid', hgid', hplayer, hroom, hgame, hcond1, hcond2,
    Bool.false_eq_true, if_false] at hsucc ⊢
  by_cases hspec : player.spectating
  · simp only [hspec, Bool.not_true, Bool.false_eq_true, if_false]
    exact ⟨hbs, hgm, hsc, hpl⟩
  · have hspec' : player.spectating = false := by simpa using hspec
    simp only [hspec', Bool.not_false, if_true] at hsucc ⊢
    cases hps : getPlayersByIDs db.players game.playerIDs with
    | none =>
        rw [hps] at hsucc
        simp [joinGameErr] at hsucc
    | some ps =>
        rw [hps] at hsucc
        simp only at hsucc ⊢
        cases maxP with
        | none =>
            simp only at hsucc ⊢
            exact ⟨hbs, hgm, hsc, hpl⟩
        | some m =>
            simp only at hsucc ⊢
            by_cases hcap : 0 < m ∧ m ≤ (List.filter (fun p =>
                p.active && p.currentRoomID == some game.roomID && !p.spectating) ps).length
            · rw [if_pos hcap] at hsucc
              simp [joinGameErr] at hsucc
            · rw [if_neg hcap] at hsucc ⊢
              exact ⟨hbs, hgm, hsc, hpl⟩

/-- C10 witness: the JoinGame statement evaluated on a concrete store where
the rejoining spectator holds score 5. -/
theorem C10_joinGame_score_overwrite_witness :
    (handleJoinGame none dbC10 [] 3 (some "p1") (some "r1") (some "g1")).broadcastScore = some 5
    ∧ getGameByID (handleJoinGame none dbC10 [] 3 (some "p1") (some "r1") (some "g1")).db "g1"
        = some (addPlayerToGame gameC10 "p1")
    ∧ assocGet (addPlayerToGame gameC10 "p1").scores "p1" = some 0
    ∧ (addPlayerToGame gameC10 "p1").playerIDs = gameC10.playerIDs :=
  C10_joinGame_score_overwrite none dbC10 [] 3 playerC10 roomC10 gameC10 5
    (by decide) (by decide) (by decide) (by decide) (by decide) (by decide)
    (by decide) (by decide) (by decide) (by decide) (by decide) (by decide)
    (by decide) (by decide)

/-- C8 witness: the amended registry statement evaluated at a concrete
input. -/
theorem C8_registry_scope_uniqueness_witness :
    scopedUnique (addClient [] "roomA" "p1" 7)
    ∧ scopedUnique (removeClient [] "roomA" "p1").1
    ∧ getClient (addClient [] "roomA" "p1" 7) NO_ROOM_KEY "p1" = none :=
  C8_registry_scope_uniqueness [] "roomA" "p1" 7
    (by intro s p; simp) (by decide)

/-! ### C5: Password-protected rooms -/

/-- C5 counterexample: a player who is already a member of the
password-protected room and supplies a wrong password through
JOIN_ROOM_WITH_CODE is rejected with an invalid-password error, so
membership does not make the request proceed as the claim states. -/
theorem C5_counterexample :
    roomC5.passwordHash ≠ none
    ∧ playerC5.currentRoomID = some roomC5.roomID
    ∧ (handleJoinRoomWithCode eqVerify none 0 dbC5 [] 5 (some "wrong") (some "p1")
        (some "CODE")).error = some (INVALID_PASSWORD_MESSAGE, UNAUTHORIZED) :=
  ⟨by decide, by decide, by decide⟩

/-- C5 (amended): for a password-protected room, JOIN_ROOM_WITH_CODE
proceeds into the shared join procedure exactly when the supplied password
verifies against the stored hash (membership does not bypass the check) and
is otherwise rejected with an invalid-password error, while JOIN_ROOM
proceeds exactly when the player is already a member (no password is
consulted) and is otherwise rejected with a player-not-in-room error. -/
theorem C5_password_gate (verify : String → String → Bool) (maxP : Option Nat) (now : Int)
    (db : DB) (reg : Reg) (ws : Nat) (password : Option String)
    (player : Player) (room : Room)
    (hpid : player.playerID ≠ "") (hrid : room.roomID ≠ "") (hcode : room.roomCode ≠ "")
    (hplayer : getPlayerByID db player.playerID = some player)
    (hroomID : getRoomByID db room.roomID = some room)
    (hroomCode : getRoomByCode db room.roomCode = some room) :
    ((jsTruthyStr room.passwordHash
        && !(verify (password.getD "") (room.passwordHash.getD ""))) = true →
      handleJoinRoomWithCode verify maxP now db reg ws password (some player.playerID)
          (some room.roomCode)
        = ⟨some (INVALID_PASSWORD_MESSAGE, UNAUTHORIZED), db, reg, none⟩)
    ∧ ((jsTruthyStr room.passwordHash
        && !(verify (password.getD "") (room.passwordHash.getD ""))) = false →
      handleJoinRoomWithCode verify maxP now db reg ws password (some player.playerID)
          (some room.roomCode)
        = joinRoom maxP now db reg ws player room)
    ∧ ((jsTruthyStr room.passwordHash && !(player.currentRoomID == some room.roomID)) = true →
      handleJoinRoom maxP now db reg ws (some player.playerID) (some room.roomID)
        = ⟨some (PLAYER_NOT_IN_ROOM_MESSAGE, BAD_REQUEST), db, reg, none⟩)
    ∧ ((jsTruthyStr room.passwordHash && !(player.currentRoomID == some room.roomID)) = false →
      handleJoinRoom maxP now db reg ws (some player.playerID) (some room.roomID)
        = joinRoom maxP now db reg ws player room) := by
  have hpid' : presentID (some player.playerID) = some player.playerID := by
    simp [presentID, hpid]
  have hrid' : presentID (some room.roomID) = some room.roomID := by
    simp [presentID, hrid]
  have hcode' : presentID (some room.roomCode) = some room.roomCode := by
    simp [presentID, hcode]
  refine ⟨?_, ?_, ?_, ?_⟩
  · intro h
    simp only [handleJoinRoomWithCode, hpid', hplayer, hcode', hroomCode, h, if_true]
  · intro h
    simp only [handleJoinRoomWithCode, hpid', hplayer, hcode', hroomCode, h,
      Bool.false_eq_true, if_false]
  · intro h
    simp only [handleJoinRoom, hpid', hplayer, hrid', hroomID, h, if_true]
  · intro h
    simp only [handleJoinRoom, hpid', hplayer, hrid', hroomID, h,
      Bool.false_eq_true, if_false]

/-- C5 witness: the amended password-gate statement evaluated on the
concrete fixture, wrong-password arm. -/
theorem C5_password_gate_witness :
    handleJoinRoomWithCode eqVerify none 0 dbC5 [] 5 (some "wrong") (some "p1") (some "CODE")
      = ⟨some (INVALID_PASSWORD_MESSAGE, UNAUTHORIZED), dbC5, [], none⟩ :=
  (C5_password_gate eqVerify none 0 dbC5 [] 5 (some "wrong") playerC5 roomC5
    (by decide) (by decide) (by decide) (by decide) (by decide) (by decide)).1 (by decide)

/-! ### C4: Lazy ban expiry on Connect and JoinRoom -/

theorem assocGet_assocRemove {α : Type} (l : List (String × α)) (k : String) :
    assocGet (assocRemove l k) k = none := by
  have hfind : List.find? (fun e => e.1 == k)
      (List.filter (fun e => !(e.1 == k)) l) = none := by
    apply (List.find?_eq_none).mpr
    intro x hx
    have hxx := List.of_mem_filter hx
    simp only [Bool.not_eq_true'] at hxx
    simp [hxx]
  unfold assocGet assocRemove
  rw [hfind]
  rfl

theorem find?_updateRoomByID (rs : List Room) (rid : String) (f : Room → Room)
    (hf : ∀ r, (f r).roomID = r.roomID) :
    List.find? (fun r => r.roomID == rid) (updateRoomByID rs rid f)
      = Option.map f (List.find? (fun r => r.roomID == rid) rs) := by
  induction rs with
  | nil => simp [updateRoomByID]
  | cons r rest ih =>
    by_cases h : (r.roomID == rid) = true
    · have hfr : ((f r).roomID == rid) = true := by rw [hf]; exact h
      simp only [updateRoomByID, if_pos h]
      rw [List.find?_cons_of_pos (p := fun (r : Room) => r.roomID == rid) _ hfr,
        List.find?_cons_of_pos (p := fun (r : Room) => r.roomID == rid) _ h]
      rfl
    · have h' : (r.roomID == rid) = false := by simpa using h
      simp only [updateRoomByID, if_neg (by simp [h'] : ¬(r.roomID == rid) = true)]
      rw [List.find?_cons_of_neg (p := fun (r : Room) => r.roomID == rid) _ (by simp [h']),
        List.find?_cons_of_neg (p := fun (r : Room) => r.roomID == rid) _ (by simp [h'])]
      exact ih

/-- C4: when the target room holds a ban entry for the player, Connect and
JoinRoom reject with a Conflict error exactly when the ban is indefinite or
unexpired and the player is not the room owner; in every other case both
operations remove the ban entry at that moment and proceed with their
normal body on the store with the entry removed. -/
theorem C4_lazy_ban_expiry (maxP : Option Nat) (now : Int) (db : DB) (reg : Reg) (ws : Nat)
    (player : Player) (room : Room) (exp : Option Int)
    (hpid : player.playerID ≠ "") (hrid : room.roomID ≠ "")
    (hplayer : getPlayerByID db player.playerID = some player)
    (hroom : getRoomByID db room.roomID = some room)
    (hkick : assocGet room.kickedPlayerIDs player.playerID = some exp) :
    ((banActive now exp && !(player.playerID == room.ownerPlayerID)) = true →
        handleClientConnect now db reg ws (some player.playerID) (some room.roomID)
          = ⟨some (PLAYER_KICKED_FROM_ROOM_MESSAGE, CONFLICT), db, reg, none⟩
        ∧ joinRoom maxP now db reg ws player room
          = ⟨some (PLAYER_KICKED_FROM_ROOM_MESSAGE, CONFLICT), db, reg, none⟩)
    ∧ ((banActive now exp && !(player.playerID == room.ownerPlayerID)) = false →
        handleClientConnect now db reg ws (some player.playerID) (some room.roomID)
          = connectCore now (dbUnkick db room.roomID player.playerID) reg ws player room
        ∧ joinRoom maxP now db reg ws player room
          = joinRoomCore maxP (dbUnkick db room.roomID player.playerID) reg ws player room
        ∧ getRoomByID (dbUnkick db room.roomID player.playerID) room.roomID
            = some { room with
                kickedPlayerIDs := assocRemove room.kickedPlayerIDs player.playerID }
        ∧ assocGet (assocRemove room.kickedPlayerIDs player.playerID) player.playerID
            = none) := by
  have hpid' : presentID (some player.playerID) = some player.playerID := by
    simp [presentID, hpid]
  have hrid' : presentID (some room.roomID) = some room.roomID := by
    simp [presentID, hrid]
  refine ⟨?_, ?_⟩
  · intro h
    constructor
    · simp only [handleClientConnect, hpid', hplayer, hrid', hroom, hkick, h, if_true]
    · simp only [joinRoom, hkick, h, if_true]
  · intro h
    refine ⟨?_, ?_, ?_, assocGet_assocRemove _ _⟩
    · simp only [handleClientConnect, hpid', hplayer, hrid', hroom, hkick, h,
        Bool.false_eq_true, if_false]
    · simp only [joinRoom, hkick, h, Bool.false_eq_true, if_false]
    · have hrooms : (dbUnkick db room.roomID player.playerID).rooms
          = updateRoomByID db.rooms room.roomID (fun rm =>
              { rm with kickedPlayerIDs := assocRemove rm.kickedPlayerIDs player.playerID }) :=
        rfl
      unfold getRoomByID
      rw [hrooms, find?_updateRoomByID db.rooms room.roomID
        (fun rm => { rm with kickedPlayerIDs := assocRemove rm.kickedPlayerIDs player.playerID })
        (fun r => rfl)]
      unfold getRoomByID at hroom
      rw [hroom]
      rfl

/-- C4 witness: the lazy-expiry statement evaluated on the concrete fixture
with an expired ban, where both operations proceed after clearing the
entry. -/
theorem C4_lazy_ban_expiry_witness :
    handleClientConnect 200 dbC4 [] 7 (some "p1") (some "r1")
      = connectCore 200 (dbUnkick dbC4 "r1" "p1") [] 7 playerC4 roomC4
    ∧ assocGet (assocRemove roomC4.kickedPlayerIDs "p1") "p1" = none :=
  let h := (C4_lazy_ban_expiry none 200 dbC4 [] 7 playerC4 roomC4 (some 100)
    (by decide) (by decide) (by decide) (by decide) (by decide)).2 (by decide)
  ⟨h.1, h.2.2.2⟩


/-! ### C3: Capacity asymmetry between room join and game join -/

theorem find?_updatePlayerByID (ps : List Player) (pid : String) (f : Player → Player)
    (hf : ∀ p, (f p).playerID = p.playerID) :
    List.find? (fun p => p.playerID == pid) (updatePlayerByID ps pid f)
      = Option.map f (List.find? (fun p => p.playerID == pid) ps) := by
  induction ps with
  | nil => simp [updatePlayerByID]
  | cons p rest ih =>
    by_cases h : (p.playerID == pid) = true
    · have hfp : ((f p).playerID == pid) = true := by rw [hf]; exact h
      simp only [updatePlayerByID, if_pos h]
      rw [List.find?_cons_of_pos (p := fun (q : Player) => q.playerID == pid) _ hfp,
        List.find?_cons_of_pos (p := fun (q : Player) => q.playerID == pid) _ h]
      rfl
    · have h' : (p.playerID == pid) = false := by simpa using h
      simp only [updatePlayerByID, if_neg (by simp [h'] : ¬(p.playerID == pid) = true)]
      rw [List.find?_cons_of_neg (p := fun (q : Player) => q.playerID == pid) _ (by simp [h']),
        List.find?_cons_of_neg (p := fun (q : Player) => q.playerID == pid) _ (by simp [h'])]
      exact ih

/-- C3: with a configured limit, a non-spectating player joining a room
whose roster of active non-spectating members exceeds the limit once the
joiner is included is not rejected: the join succeeds, the joiner is flipped
to spectating in the store, and the roster broadcast already carries the
flipped entry; joining a game whose active non-spectating participant count
scoped to the room has reached the same limit is rejected with a
max-players-exceeded error and the store and registry are left unchanged. -/
theorem C3_capacity_asymmetry (m : Nat)
    (dbR : DB) (regR : Reg) (wsR : Nat) (player : Player) (room : Room)
    (roster : List (String × Player)) (entry : Player)
    (hspect : player.spectating = false) (hm : 0 < m)
    (hroster : getAllPlayersInRoom
        (joinRoomMemberDB (joinRoomMigrateDB dbR player room) player room)
        player (joinRoomRoomView room player) = some roster)
    (hcount : m < (List.filter (fun q => q.2.active && !q.2.spectating) roster).length)
    (hentry : assocGet roster player.playerID = some entry)
    (dbG : DB) (regG : Reg) (wsG : Nat) (playerG : Player) (roomG : Room) (game : Game)
    (ps : List Player)
    (hpidG : playerG.playerID ≠ "") (hridG : roomG.roomID ≠ "") (hgidG : game.gameID ≠ "")
    (hplayerG : getPlayerByID dbG playerG.playerID = some playerG)
    (hroomG : getRoomByID dbG roomG.roomID = some roomG)
    (hgameG : getGameByID dbG game.gameID = some game)
    (hmemG : playerG.playerID ∈ roomG.playerIDs)
    (hcurG : playerG.currentRoomID = some roomG.roomID)
    (hactG : roomG.currentGameID = some game.gameID)
    (hgrG : game.roomID = roomG.roomID)
    (hspectG : playerG.spectating = false)
    (hps : getPlayersByIDs dbG.players game.playerIDs = some ps)
    (hnum : m ≤ (List.filter (fun p =>
        p.active && p.currentRoomID == some game.roomID && !p.spectating) ps).length) :
    ((joinRoomCore (some m) dbR regR wsR player room).error = none
      ∧ (joinRoomCore (some m) dbR regR wsR player room).roster
          = some (assocSet roster player.playerID { entry with spectating := true })
      ∧ (∀ p, getPlayerByID (joinRoomCore (some m) dbR regR wsR player room).db
            player.playerID = some p → p.spectating = true))
    ∧ handleJoinGame (some m) dbG regG wsG (some playerG.playerID) (some roomG.roomID)
        (some game.gameID)
      = joinGameErr dbG regG MAX_PLAYERS_EXCEEDED_MESSAGE BAD_REQUEST := by
  constructor
  · unfold joinRoomCore
    simp only
    rw [hroster]
    simp only
    have hover : (!player.spectating && decide (0 < m) && decide (m <
        (List.filter (fun q => q.2.active && !q.2.spectating) roster).length)) = true := by
      simp [hspect, hm, hcount]
    simp only [hover, if_true, hentry]
    refine ⟨trivial, trivial, ?_⟩
    intro p hp
    unfold getPlayerByID at hp
    simp only at hp
    rw [find?_updatePlayerByID
      (joinRoomMemberDB (joinRoomMigrateDB dbR player room) player room).players
      player.playerID (fun q => { q with spectating := true }) (fun q => rfl)] at hp
    rcases hfind : List.find? (fun q => q.playerID == player.playerID)
        (joinRoomMemberDB (joinRoomMigrateDB dbR player room) player room).players with _ | q
    · rw [hfind] at hp
      simp at hp
    · rw [hfind] at hp
      simp only [Option.map_some', Option.some.injEq] at hp
      rw [← hp]
  · have hpidG' : presentID (some playerG.playerID) = some playerG.playerID := by
      simp [presentID, hpidG]
    have hridG' : presentID (some roomG.roomID) = some roomG.roomID := by
      simp [presentID, hridG]
    have hgidG' : presentID (some game.gameID) = some game.gameID := by
      simp [presentID, hgidG]
    have hcond1 : (!(List.contains roomG.playerIDs playerG.playerID)
        || !(playerG.currentRoomID == some roomG.roomID)) = false := by
      simp [hcurG]
      simpa using hmemG
    have hcond2 : (!(roomG.currentGameID == some game.gameID)
        || !(game.roomID == roomG.roomID)) = false := by
      simp [hactG, hgrG]
    simp only [handleJoinGame, hpidG', hridG', hgidG', hplayerG, hroomG, hgameG,
      hcond1, hcond2, Bool.false_eq_true, if_false, hspectG, Bool.not_false, if_true]
    rw [hps]
    simp only
    rw [if_pos ⟨hm, hnum⟩]

/-- C3 witness: the capacity-asymmetry statement evaluated on concrete
fixtures with a limit of one. -/
theorem C3_capacity_asymmetry_witness :
    (joinRoomCore (some 1) dbC3r [] 7 playerC3 roomC3).error = none
    ∧ (joinRoomCore (some 1) dbC3r [] 7 playerC3 roomC3).roster
        = some (assocSet rosterC3 "p1" { playerC3inRoom with spectating := true })
    ∧ handleJoinGame (some 1) dbC3g [] 7 (some "p1") (some "r1") (some "g1")
        = joinGameErr dbC3g [] MAX_PLAYERS_EXCEEDED_MESSAGE BAD_REQUEST :=
  let h := C3_capacity_asymmetry 1 dbC3r [] 7 playerC3 roomC3 rosterC3 playerC3inRoom
    (by decide) (by decide) (by decide) (by decide) (by decide)
    dbC3g [] 7 playerC3g roomC3g gameC3 [memberC3]
    (by decide) (by decide) (by decide) (by decide) (by decide) (by decide)
    (by decide) (by decide) (by decide) (by decide) (by decide) (by decide) (by decide)
  ⟨h.1.1, h.1.2.1, h.2⟩


/-! ### C2 and C6: KickPlayer duration validation and broadcast ordering -/

theorem error_kickCommit (now : Int) (db : DB) (reg : Reg) (pid : String) (room : Room)
    (d : Int) : (kickCommit now db reg pid room d).error = none := by
  unfold kickCommit
  simp only
  cases h : (removeClient reg room.roomID pid).2 <;> rfl

theorem getRoom_kickCommit (now : Int) (db : DB) (reg : Reg) (pid : String) (room : Room)
    (d : Int) (hroom : getRoomByID db room.roomID = some room) :
    getRoomByID (kickCommit now db reg pid room d).db room.roomID
      = some { room with kickedPlayerIDs := assocSet room.kickedPlayerIDs pid (if 0 < d then some (now + d * 1000) else none) } := by
  have hdb : (kickCommit now db reg pid room d).db.rooms
      = updateRoomByID db.rooms room.roomID (fun rm =>
          { rm with kickedPlayerIDs := assocSet rm.kickedPlayerIDs pid (if 0 < d then some (now + d * 1000) else none) }) := by
    unfold kickCommit
    simp only
    cases h : (removeClient reg room.roomID pid).2 <;> rfl
  unfold getRoomByID
  rw [hdb, find?_updateRoomByID db.rooms room.roomID
    (fun rm => { rm with kickedPlayerIDs := assocSet rm.kickedPlayerIDs pid (if 0 < d then some (now + d * 1000) else none) }) (fun r => rfl)]
  unfold getRoomByID at hroom
  rw [hroom]
  rfl

theorem actions_kickCommit (now : Int) (db : DB) (reg : Reg) (pid : String) (room : Room)
    (d : Int) :
    (kickCommit now db reg pid room d).actions
      = Action.bcast HOST_KICKED_PLAYER_EVENT ((getClients reg room.roomID).map Prod.fst)
        :: Action.remClient room.roomID pid
        :: (if (getClient reg room.roomID pid).isSome then
              [Action.addClientAct NO_ROOM_KEY pid] else []) := by
  unfold kickCommit
  simp only
  cases h : (removeClient reg room.roomID pid).2 with
  | none =>
      have hg : getClient reg room.roomID pid = none := h
      simp [hg]
  | some pws =>
      have hg : getClient reg room.roomID pid = some pws := h
      simp [hg]

theorem handleKickPlayer_reduce (maxKick now : Int) (db : DB) (reg : Reg) (ws : Nat)
    (player : Player) (room : Room)
    (hpid : player.playerID ≠ "") (hrid : room.roomID ≠ "")
    (hplayer : getPlayerByID db player.playerID = some player)
    (hroom : getRoomByID db room.roomID = some room)
    (hmem : player.playerID ∈ room.playerIDs)
    (hcur : player.currentRoomID = some room.roomID)
    (hnk : assocGet room.kickedPlayerIDs player.playerID = none)
    (hhost : getClient reg room.roomID room.hostPlayerID = some ws)
    (dOpt : Option Int) :
    handleKickPlayer maxKick now db reg ws (some player.playerID) (some room.roomID) dOpt
      = (match dOpt with
         | none => kickErr db reg INVALID_DURATION_MESSAGE BAD_REQUEST
         | some d =>
             if d < 0 ∨ maxKick < d then kickErr db reg INVALID_DURATION_MESSAGE BAD_REQUEST
             else kickCommit now db reg player.playerID room d) := by
  have hpid' : presentID (some player.playerID) = some player.playerID := by
    simp [presentID, hpid]
  have hrid' : presentID (some room.roomID) = some room.roomID := by
    simp [presentID, hrid]
  have hcond1 : (!(List.contains room.playerIDs player.playerID)
      || !(player.currentRoomID == some room.roomID)) = false := by
    simp [hcur]
    simpa using hmem
  simp only [handleKickPlayer, hpid', hrid', hplayer, hroom, hcond1,
    Bool.false_eq_true, if_false, hnk, Option.isSome_none, hhost,
    beq_self_eq_true, Bool.not_true]

/-- C2: provided the kick request passes the membership, prior-ban, and live
host checks, a duration of 0 stores a null (indefinite) ban expiration for
the target, a duration d with 0 < d and d at most the maximum stores the
expiration now plus d times 1000 milliseconds, and a duration that is
negative, above the maximum, or not a number is rejected with a BadRequest
invalid-duration error leaving the store and the registry unchanged. -/
theorem C2_kick_duration (maxKick now : Int) (db : DB) (reg : Reg) (ws : Nat)
    (player : Player) (room : Room)
    (hpid : player.playerID ≠ "") (hrid : room.roomID ≠ "")
    (hplayer : getPlayerByID db player.playerID = some player)
    (hroom : getRoomByID db room.roomID = some room)
    (hmem : player.playerID ∈ room.playerIDs)
    (hcur : player.currentRoomID = some room.roomID)
    (hnk : assocGet room.kickedPlayerIDs player.playerID = none)
    (hhost : getClient reg room.roomID room.hostPlayerID = some ws)
    (hmax : 0 ≤ maxKick) :
    ((handleKickPlayer maxKick now db reg ws (some player.playerID) (some room.roomID)
        (some 0)).error = none
      ∧ getRoomByID (handleKickPlayer maxKick now db reg ws (some player.playerID)
          (some room.roomID) (some 0)).db room.roomID
        = some { room with kickedPlayerIDs := assocSet room.kickedPlayerIDs player.playerID none }
      ∧ assocGet (assocSet room.kickedPlayerIDs player.playerID (none : Option Int))
          player.playerID = some none)
    ∧ (∀ d : Int, 0 < d → d ≤ maxKick →
        (handleKickPlayer maxKick now db reg ws (some player.playerID) (some room.roomID)
            (some d)).error = none
        ∧ getRoomByID (handleKickPlayer maxKick now db reg ws (some player.playerID)
            (some room.roomID) (some d)).db room.roomID
          = some { room with kickedPlayerIDs := assocSet room.kickedPlayerIDs player.playerID (some (now + d * 1000)) }
        ∧ assocGet (assocSet room.kickedPlayerIDs player.playerID (some (now + d * 1000)))
            player.playerID = some (some (now + d * 1000)))
    ∧ (∀ d : Int, d < 0 ∨ maxKick < d →
        handleKickPlayer maxKick now db reg ws (some player.playerID) (some room.roomID)
          (some d) = kickErr db reg INVALID_DURATION_MESSAGE BAD_REQUEST)
    ∧ handleKickPlayer maxKick now db reg ws (some player.playerID) (some room.roomID) none
        = kickErr db reg INVALID_DURATION_MESSAGE BAD_REQUEST := by
  have hred := handleKickPlayer_reduce maxKick now db reg ws player room
    hpid hrid hplayer hroom hmem hcur hnk hhost
  refine ⟨?_, ?_, ?_, ?_⟩
  · rw [hred (some 0)]
    simp only
    rw [if_neg (by omega)]
    refine ⟨error_kickCommit _ _ _ _ _ _, ?_, assocGet_assocSet _ _ _⟩
    rw [getRoom_kickCommit _ _ _ _ _ _ hroom]
    norm_num
  · intro d hd0 hdmax
    rw [hred (some d)]
    simp only
    rw [if_neg (by omega)]
    refine ⟨error_kickCommit _ _ _ _ _ _, ?_, assocGet_assocSet _ _ _⟩
    rw [getRoom_kickCommit _ _ _ _ _ _ hroom]
    rw [if_pos hd0]
  · intro d hd
    rw [hred (some d)]
    simp only
    rw [if_pos hd]
  · rw [hred none]

/-- C2 witness: the duration statement evaluated on a concrete kick with an
indefinite ban, a 60 second ban, and a rejected negative duration. -/
theorem C2_kick_duration_witness :
    (handleKickPlayer 604800 1000 dbC2 regC2 5 (some "p1") (some "r1") (some 0)).error = none
    ∧ getRoomByID (handleKickPlayer 604800 1000 dbC2 regC2 5 (some "p1") (some "r1")
        (some 0)).db "r1"
      = some { roomC2 with kickedPlayerIDs := assocSet roomC2.kickedPlayerIDs "p1" none }
    ∧ getRoomByID (handleKickPlayer 604800 1000 dbC2 regC2 5 (some "p1") (some "r1")
        (some 60)).db "r1"
      = some { roomC2 with kickedPlayerIDs := assocSet roomC2.kickedPlayerIDs "p1" (some 61000) }
    ∧ handleKickPlayer 604800 1000 dbC2 regC2 5 (some "p1") (some "r1") (some (-1))
        = kickErr dbC2 regC2 INVALID_DURATION_MESSAGE BAD_REQUEST :=
  let h := C2_kick_duration 604800 1000 dbC2 regC2 5 playerC2 roomC2
    (by decide) (by decide) (by decide) (by decide) (by decide) (by decide)
    (by decide) (by decide) (by decide)
  ⟨h.1.1, h.1.2.1, (h.2.1 60 (by norm_num) (by norm_num)).2.1,
    h.2.2.1 (-1) (by norm_num)⟩

theorem mem_getClients_of_getClient (reg : Reg) (scope pid : String) (w : Nat)
    (h : getClient reg scope pid = some w) :
    pid ∈ (getClients reg scope).map Prod.fst := by
  unfold getClient at h
  rcases hf : List.find? (fun e => e.scope == scope && e.playerID == pid) reg with _ | e
  · rw [hf] at h
    simp at h
  · have hmem := List.mem_of_find?_eq_some hf
    have hpe := List.find?_some hf
    simp only [Bool.and_eq_true, beq_iff_eq] at hpe
    unfold getClients
    rw [List.map_map]
    apply List.mem_map.mpr
    refine ⟨e, List.mem_filter.mpr ⟨hmem, by simp [hpe.1]⟩, ?_⟩
    simp [hpe.2]

/-- C6: in every successful kick, the HOST_KICKED_PLAYER broadcast is the
first observable action and its recipient snapshot is taken from the room
scope of the registry before any registry removal, so a connected target is
among the recipients; the removal of the target from the room scope comes
strictly after the broadcast, and only afterwards is the target connection,
when there is one, moved to the no-room scope. -/
theorem C6_kick_broadcast_before_removal (maxKick now : Int) (db : DB) (reg : Reg)
    (ws : Nat) (player : Player) (room : Room) (d : Int)
    (hpid : player.playerID ≠ "") (hrid : room.roomID ≠ "")
    (hplayer : getPlayerByID db player.playerID = some player)
    (hroom : getRoomByID db room.roomID = some room)
    (hmem : player.playerID ∈ room.playerIDs)
    (hcur : player.currentRoomID = some room.roomID)
    (hnk : assocGet room.kickedPlayerIDs player.playerID = none)
    (hhost : getClient reg room.roomID room.hostPlayerID = some ws)
    (hd : ¬(d < 0 ∨ maxKick < d)) :
    (handleKickPlayer maxKick now db reg ws (some player.playerID) (some room.roomID)
        (some d)).error = none
    ∧ (handleKickPlayer maxKick now db reg ws (some player.playerID) (some room.roomID)
        (some d)).actions
      = Action.bcast HOST_KICKED_PLAYER_EVENT ((getClients reg room.roomID).map Prod.fst)
        :: Action.remClient room.roomID player.playerID
        :: (if (getClient reg room.roomID player.playerID).isSome then
              [Action.addClientAct NO_ROOM_KEY player.playerID] else [])
    ∧ (∀ w, getClient reg room.roomID player.playerID = some w →
        player.playerID ∈ (getClients reg room.roomID).map Prod.fst) := by
  have hred := handleKickPlayer_reduce maxKick now db reg ws player room
    hpid hrid hplayer hroom hmem hcur hnk hhost (some d)
  rw [hred]
  simp only
  rw [if_neg hd]
  exact ⟨error_kickCommit _ _ _ _ _ _, actions_kickCommit _ _ _ _ _ _,
    fun w hw => mem_getClients_of_getClient reg room.roomID player.playerID w hw⟩

/-- C6 witness: the ordering statement evaluated on the concrete kick
fixture where the target is connected. -/
theorem C6_kick_broadcast_before_removal_witness :
    (handleKickPlayer 604800 1000 dbC2 regC2 5 (some "p1") (some "r1") (some 60)).error = none
    ∧ (handleKickPlayer 604800 1000 dbC2 regC2 5 (some "p1") (some "r1") (some 60)).actions
      = Action.bcast HOST_KICKED_PLAYER_EVENT ((getClients regC2 "r1").map Prod.fst)
        :: Action.remClient "r1" "p1"
        :: (if (getClient regC2 "r1" "p1").isSome then
              [Action.addClientAct NO_ROOM_KEY "p1"] else []) :=
  let h := C6_kick_broadcast_before_removal 604800 1000 dbC2 regC2 5 playerC2 roomC2 60
    (by decide) (by decide) (by decide) (by decide) (by decide) (by decide)
    (by decide) (by decide) (by norm_num)
  ⟨h.1, h.2.1⟩


/-! ### C9: Room-code generation -/

theorem sampleCode_length (alphabet : List Char) (codeLen : Nat) (rng : Nat → Nat)
    (round : Nat) : (sampleCode alphabet codeLen rng round).length = codeLen := by
  unfold sampleCode
  simp [String.length]

theorem sampleCode_mem (alphabet : List Char) (codeLen : Nat) (rng : Nat → Nat)
    (round : Nat) (h : alphabet ≠ []) :
    ∀ c ∈ (sampleCode alphabet codeLen rng round).data, c ∈ alphabet := by
  intro c hc
  unfold sampleCode at hc
  simp only [List.mem_map, List.mem_range] at hc
  obtain ⟨i, hi, hgot⟩ := hc
  have hlen : 0 < alphabet.length := List.length_pos.mpr h
  have hidx : rng (round * codeLen + i) % alphabet.length < alphabet.length :=
    Nat.mod_lt _ hlen
  rw [List.getD_eq_getElem alphabet 'A' hidx] at hgot
  rw [← hgot]
  exact List.getElem_mem hidx

theorem genLoop_sound (bound : String → Bool) (alphabet : List Char) (codeLen : Nat)
    (rng : Nat → Nat) :
    ∀ fuel start code, genLoop bound alphabet codeLen rng fuel start = some code →
      bound code = false ∧ ∃ round, code = sampleCode alphabet codeLen rng round := by
  intro fuel
  induction fuel with
  | zero =>
      intro start code h
      simp [genLoop] at h
  | succ n ih =>
      intro start code h
      unfold genLoop at h
      simp only at h
      by_cases hb : ((sampleCode alphabet codeLen rng start == "")
          || bound (sampleCode alphabet codeLen rng start)) = true
      · rw [if_pos hb] at h
        exact ih (start + 1) code h
      · rw [if_neg hb] at h
        cases h
        simp only [Bool.or_eq_true, not_or, Bool.not_eq_true] at hb
        exact ⟨hb.2, start, rfl⟩

theorem genLoop_terminates (bound : String → Bool) (alphabet : List Char) (codeLen : Nat)
    (rng : Nat → Nat) :
    ∀ fuel start, (∃ i, i < fuel
        ∧ (sampleCode alphabet codeLen rng (start + i) == "") = false
        ∧ bound (sampleCode alphabet codeLen rng (start + i)) = false) →
      ∃ code, genLoop bound alphabet codeLen rng fuel start = some code := by
  intro fuel
  induction fuel with
  | zero =>
      rintro start ⟨i, hi, _⟩
      exact absurd hi (Nat.not_lt_zero i)
  | succ n ih =>
      rintro start ⟨i, hi, hne, hb⟩
      unfold genLoop
      simp only
      by_cases h0 : ((sampleCode alphabet codeLen rng start == "")
          || bound (sampleCode alphabet codeLen rng start)) = true
      · rw [if_pos h0]
        apply ih (start + 1)
        rcases i with _ | j
        · rw [Nat.add_zero] at hne hb
          rw [hne, hb] at h0
          simp at h0
        · refine ⟨j, by omega, ?_, ?_⟩
          · rw [show start + 1 + j = start + (j + 1) from by omega]
            exact hne
          · rw [show start + 1 + j = start + (j + 1) from by omega]
            exact hb
      · rw [if_neg h0]
        exact ⟨_, rfl⟩

/-- C9: generateUniqueRoomCode, with the store lookup by room code as the
bound predicate, only ever returns a code of the configured length made of
alphabet characters that is not bound to any existing room at the time of
its final lookup; and whenever some sampled round within the fuel budget
produces an unbound code, the generator does return a code. -/
theorem C9_generateUniqueRoomCode (db : DB) (alphabet : List Char) (codeLen : Nat)
    (rng : Nat → Nat) (fuel : Nat) (halpha : alphabet ≠ []) :
    (∀ code, generateUniqueRoomCode (fun c => (getRoomByCode db c).isSome)
        alphabet codeLen rng fuel = some code →
      getRoomByCode db code = none
      ∧ code.length = codeLen
      ∧ ∀ ch ∈ code.data, ch ∈ alphabet)
    ∧ (∀ i, i < fuel →
        (sampleCode alphabet codeLen rng i == "") = false →
        getRoomByCode db (sampleCode alphabet codeLen rng i) = none →
        ∃ code, generateUniqueRoomCode (fun c => (getRoomByCode db c).isSome)
          alphabet codeLen rng fuel = some code) := by
  constructor
  · intro code h
    obtain ⟨hb, round, rfl⟩ := genLoop_sound (fun c => (getRoomByCode db c).isSome)
      alphabet codeLen rng fuel 0 code h
    refine ⟨?_, sampleCode_length alphabet codeLen rng round,
      sampleCode_mem alphabet codeLen rng round halpha⟩
    simpa using hb
  · intro i hi hne hb
    apply genLoop_terminates (fun c => (getRoomByCode db c).isSome) alphabet codeLen rng fuel 0
    refine ⟨i, hi, ?_, ?_⟩
    · simpa using hne
    · simp [hb]

/-- C9 witness: with an alphabet of A and B, length four, and a random
stream that always picks index one, the generator returns BBBB, which is
unbound, of the right length, and drawn from the alphabet. -/
theorem C9_generateUniqueRoomCode_witness :
    getRoomByCode dbC9 "BBBB" = none
    ∧ ("BBBB" : String).length = 4
    ∧ ∀ ch ∈ ("BBBB" : String).data, ch ∈ ['A', 'B'] :=
  (C9_generateUniqueRoomCode dbC9 ['A', 'B'] 4 (fun _ => 1) 3 (by decide)).1
    "BBBB" (by decide)

end AleaServer
